import Mathlib

/-!
Shallow embedding of the Notepad2 MATLAB-family lexer
(`src/scintilla/lexers/LexMatlab.cxx`) and the lexer-library range helpers
(`src/scintilla/lexlib/LexAccessor.cxx`).

Documents are modelled as lists of characters (`Doc`); positions are `Nat`.
The Scintilla accessor method `SafeGetCharAt` returns the blank sentinel `' '`
outside the document.  Style values are the `SCE_MAT_*` constants, modelled
as distinct natural numbers (`SCE_MAT_DEFAULT = 0`, `SCE_MAT_COMMENT = 1`,
matching SciLexer.h; the remaining values are an arbitrary distinct
enumeration, no theorem depends on the particular numbers beyond
`SCE_MAT_DEFAULT = 0` and `0 < SCE_MAT_COMMENT ≤ 255`, which the fold
helper `IsLexCommentLine` relies on).
-/

namespace LexMatlab

abbrev Doc := List Char

/-- `LexAccessor::SafeGetCharAt` with the default blank sentinel. -/
def charAt (doc : Doc) (p : Nat) : Char := doc.getD p ' '

/-- The character before position `p` (`sc.chPrev`); blank at the start. -/
def chPrevAt (doc : Doc) (p : Nat) : Char := if p = 0 then ' ' else charAt doc (p - 1)

/-- `IsADigit` from CharacterSet.h. -/
def isADigit (c : Char) : Bool := '0' ≤ c && c ≤ '9'

def isUpperAZ (c : Char) : Bool := 'A' ≤ c && c ≤ 'Z'

def isLowerAZ (c : Char) : Bool := 'a' ≤ c && c ≤ 'z'

def isAlphaAscii (c : Char) : Bool := isUpperAZ c || isLowerAZ c

/-- `IsHexDigit` from CharacterSet.h. -/
def isHexDigit (c : Char) : Bool :=
  isADigit c || ('a' ≤ c && c ≤ 'f') || ('A' ≤ c && c ≤ 'F')

/-- `isspacechar` from CharacterSet.h: space or one of `\t \n \v \f \r`. -/
def isspacechar (c : Char) : Bool :=
  c = ' ' || c = '\t' || c = '\n' || c = '\x0b' || c = '\x0c' || c = '\r'

/-- `IsSpaceOrTab` from CharacterSet.h. -/
def isSpaceOrTab (c : Char) : Bool := c = ' ' || c = '\t'

/-- `iswordstart` from CharacterSet.h: ASCII alphanumeric or underscore. -/
def iswordstart (c : Char) : Bool := isAlphaAscii c || isADigit c || c = '_'

/-- `isoperator` from CharacterSet.h. -/
def isoperator (c : Char) : Bool :=
  c = '%' || c = '^' || c = '&' || c = '*' || c = '(' || c = ')' ||
  c = '-' || c = '+' || c = '=' || c = '|' || c = '{' || c = '}' ||
  c = '[' || c = ']' || c = ':' || c = ';' || c = '<' || c = '>' ||
  c = ',' || c = '/' || c = '?' || c = '!' || c = '.' || c = '~'

/-- `IsMatOperator` (LexMatlab.cxx line 76). -/
def isMatOperator (c : Char) : Bool :=
  isoperator c || c = '@' || c = '\\' || c = '$'

/-- `IsInvalidFileName` (LexMatlab.cxx line 88). -/
def isInvalidFileName (c : Char) : Bool :=
  isspacechar c || c = '<' || c = '>' || c = '/' || c = '\\' || c = '\'' || c = '\"' ||
  c = '|' || c = '*' || c = '?'

/-- `IsMatNumber` (LexMatlab.cxx line 81): number-continuation test. -/
def isMatNumber (ch chPrev : Char) : Bool :=
  isADigit ch || (ch = '.' && chPrev ≠ '.')
  || ((ch = '+' || ch = '-') && (chPrev = 'e' || chPrev = 'E'))
  || (isADigit chPrev && (ch = 'e' || ch = 'E'
      || ch = 'i' || ch = 'j' || ch = 'I' || ch = 'J'))

/-- Position `p` terminates its line: a `\n`, a `\r` not followed by `\n`,
or the final position of an unterminated last line.  This is the Scintilla
`atLineEnd` condition `currentPos >= lineStartNext - 1`. -/
def atLineEndPos (doc : Doc) (p : Nat) : Bool :=
  charAt doc p = '\n' || (charAt doc p = '\r' && charAt doc (p + 1) ≠ '\n')
  || p + 1 ≥ doc.length

/-- Position `p` starts a line (Scintilla `atLineStart`). -/
def atLineStartPos (doc : Doc) (p : Nat) : Bool :=
  p = 0 || charAt doc (p - 1) = '\n'
  || (charAt doc (p - 1) = '\r' && charAt doc p ≠ '\n')

/-- A line terminator sits at position `i` (`\n`, or a `\r` not part of `\r\n`). -/
def isLineTermAt (doc : Doc) (i : Nat) : Bool :=
  charAt doc i = '\n' || (charAt doc i = '\r' && charAt doc (i + 1) ≠ '\n')

/-- `styler.GetLine p`: index of the line containing `p` = number of line
terminators strictly before `p`. -/
def lineOf (doc : Doc) (p : Nat) : Nat :=
  (List.range p).countP (fun i => isLineTermAt doc i)

/-- Forward search for the line terminator, fuelled so that it reduces by
kernel computation (the fuel is always sufficient: the cursor moves towards
`doc.length`). -/
def lexEOLPosGo (doc : Doc) : Nat → Nat → Nat
  | 0, _ => doc.length - 1
  | fuel + 1, i =>
    if i < doc.length then
      if isLineTermAt doc i then i else lexEOLPosGo doc fuel (i + 1)
    else doc.length - 1

/-- The position `LineStart(line + 1) - 1` for the line containing `i`
(assuming `i` lies within that line): the index of the terminator of that
line, or `doc.length - 1` when the last line is unterminated.  Used by
`IsLexSpaceToEOL`. -/
def lexEOLPos (doc : Doc) (i : Nat) : Nat :=
  lexEOLPosGo doc (doc.length + 1) i

/-- `IsLexSpaceToEOL` (LexAccessor.cxx line 40): only spaces and tabs from
`startPos` to the end of its line. -/
def isLexSpaceToEOL (doc : Doc) (startPos : Nat) : Bool :=
  let e := lexEOLPos doc startPos
  (List.range' startPos (e - startPos)).all (fun i => isSpaceOrTab (charAt doc i))

/-- `styler.LineStart line`: position of the first character of `line`
(`doc.length` beyond the last line). -/
def lineStartPos (doc : Doc) : Nat → Nat
  | 0 => 0
  | line + 1 =>
    let t := lexEOLPos doc (lineStartPos doc line)
    min (t + 1) doc.length

/-- `styler.Match pos s`: the document contains `s` starting at `pos`. -/
def matchAt (doc : Doc) (pos : Nat) : List Char → Bool
  | [] => true
  | c :: cs => charAt doc pos = c && matchAt doc (pos + 1) cs

/-- `sc.GetNextNSChar()` from the Notepad2 `StyleContext`.
Modelled from the spec: "next non-space character is `(`" (§4.1) — the
first character at or after the current position that is not a space
character, `'\0'` when none exists before the end of the document. -/
def getNextNSCharGo (doc : Doc) : Nat → Nat → Char
  | 0, _ => Char.ofNat 0
  | fuel + 1, p =>
    if p < doc.length then
      if isspacechar (charAt doc p) then getNextNSCharGo doc fuel (p + 1) else charAt doc p
    else Char.ofNat 0

def getNextNSChar (doc : Doc) (p : Nat) : Char :=
  getNextNSCharGo doc (doc.length + 1) p

end LexMatlab

namespace LexMatlab

/-! Style constants (`SCE_MAT_*`).  `SCE_MAT_DEFAULT = 0` and
`SCE_MAT_COMMENT = 1` match SciLexer.h; the Notepad2-specific additions are
modelled as an arbitrary distinct enumeration. -/

def SCE_MAT_DEFAULT : Nat := 0
def SCE_MAT_COMMENT : Nat := 1
def SCE_MAT_COMMAND : Nat := 2
def SCE_MAT_NUMBER : Nat := 3
def SCE_MAT_KEYWORD : Nat := 4
def SCE_MAT_STRING : Nat := 5
def SCE_MAT_OPERATOR : Nat := 6
def SCE_MAT_IDENTIFIER : Nat := 7
def SCE_MAT_DOUBLEQUOTESTRING : Nat := 8
def SCE_MAT_HEXNUM : Nat := 9
def SCE_MAT_ATTRIBUTE : Nat := 10
def SCE_MAT_INTERNALCOMMAND : Nat := 11
def SCE_MAT_FUNCTION1 : Nat := 12
def SCE_MAT_FUNCTION2 : Nat := 13
def SCE_MAT_FUNCTION : Nat := 14
def SCE_MAT_CALLBACK : Nat := 15
def SCE_MAT_VARIABLE : Nat := 16
def SCE_MAT_REGEX : Nat := 17
def SCE_MAT_RAW_STRING2 : Nat := 18
def SCE_MAT_TRIPLE_STRING2 : Nat := 19
def SCE_MAT_BACKTICK : Nat := 20
def SCE_MAT_COMMENTBLOCK : Nat := 21

/-! Lexer language ids (LexMatlab.cxx lines 22-26). -/

def LEX_MATLAB : Nat := 40
def LEX_OCTAVE : Nat := 61
def LEX_SCILAB : Nat := 62
def LEX_GNUPLOT : Nat := 65
def LEX_JULIA : Nat := 66

/-- `IsMatlabOctave` (line 28). -/
def isMatlabOctave (lexType : Nat) : Bool :=
  lexType = LEX_MATLAB || lexType = LEX_OCTAVE

/-- `IsLineCommentStart` (line 32). -/
def isLineCommentStart (lexType : Nat) (doc : Doc) (pos visibleChars : Nat) : Bool :=
  let ch := charAt doc pos
  let chNext := charAt doc (pos + 1)
  ch = '#'
  || (isMatlabOctave lexType &&
      (ch = '%' || (visibleChars = 0 && ch = '.' && chNext = '.' && charAt doc (pos + 2) = '.')))
  || (lexType ≠ LEX_JULIA && ch = '/' && chNext = '/')

/-- `IsNestedCommentStart` (line 40). -/
def isNestedCommentStart (lexType : Nat) (doc : Doc) (ch chNext : Char)
    (visibleChars currentPos : Nat) : Bool :=
  visibleChars = 0 && chNext = '{'
  && ((lexType = LEX_MATLAB && ch = '%') || (lexType = LEX_OCTAVE && (ch = '%' || ch = '#')))
  && isLexSpaceToEOL doc (currentPos + 2)

/-- `IsNestedCommentEnd` (line 46). -/
def isNestedCommentEnd (lexType : Nat) (doc : Doc) (ch chNext : Char)
    (visibleChars currentPos : Nat) : Bool :=
  visibleChars = 0 && chNext = '}'
  && ((lexType = LEX_MATLAB && ch = '%') || (lexType = LEX_OCTAVE && (ch = '%' || ch = '#')))
  && isLexSpaceToEOL doc (currentPos + 2)

/-- `IsBlockCommentStart` (line 52). -/
def isBlockCommentStart (lexType : Nat) (doc : Doc) (ch chNext : Char)
    (visibleChars currentPos : Nat) : Bool :=
  isNestedCommentStart lexType doc ch chNext visibleChars currentPos
  || (lexType = LEX_JULIA && (ch = '#' && chNext = '='))
  || (ch = '/' && chNext = '*')

/-- `IsBlockCommentEnd` (line 58). -/
def isBlockCommentEnd (lexType : Nat) (doc : Doc) (ch chNext : Char)
    (visibleChars currentPos : Nat) : Bool :=
  isNestedCommentEnd lexType doc ch chNext visibleChars currentPos
  || (lexType = LEX_JULIA && (ch = '=' && chNext = '#'))
  || (ch = '*' && chNext = '/')

/-- Scan parameters of one `ColouriseMatlabDoc` invocation: the buffer, the
dialect, the five configured keyword sets (words as character lists), and
the start position of the invocation (styling origin). -/
structure Ctx where
  doc : Doc
  lexType : Nat
  keywords : List (List Char)
  attributes : List (List Char)
  commands : List (List Char)
  function1 : List (List Char)
  function2 : List (List Char)
  scanStart : Nat
deriving Repr

/-- `WordList::InListPrefixed(s, marker)` for the function lists.
Modelled from the spec: a keyword-set membership test ("membership with
required following character", §6); the marker handling is internal to the
host word-list format, so it is plain membership here. -/
def inListFn (l : List (List Char)) (w : List Char) : Bool := l.contains w

/-- The mutable scan state of `ColouriseMatlabDoc`: cursor, current lexical
state, styles emitted so far (one per position from `scanStart`, so the
styling front `startSeg` is `scanStart + styles.length`), and the
scan-local variables of the source (lines 113-121). `lineStates` logs the
`styler.SetLineState` writes in order. -/
structure MatState where
  pos : Nat
  state : Nat
  styles : List Nat
  commentLevel : Int
  visibleChars : Nat
  isTransposeOperator : Bool
  hasTest : Bool
  lineCurrent : Nat
  lineStates : List (Nat × Int)
deriving Repr, DecidableEq

/-- `sc.ch`. -/
def ch (c : Ctx) (s : MatState) : Char := charAt c.doc s.pos

/-- `sc.chNext`. -/
def chNext (c : Ctx) (s : MatState) : Char := charAt c.doc (s.pos + 1)

/-- `sc.chPrev`. -/
def chPrev (c : Ctx) (s : MatState) : Char := chPrevAt c.doc s.pos

/-- `sc.Forward()`: advances while inside the scanned range. -/
def fwd (c : Ctx) (s : MatState) : MatState :=
  if s.pos < c.doc.length then { s with pos := s.pos + 1 } else s

def fwd2 (c : Ctx) (s : MatState) : MatState := fwd c (fwd c s)

def fwd3 (c : Ctx) (s : MatState) : MatState := fwd c (fwd2 c s)

/-- The styling front `startSeg` of the accessor. -/
def startSeg (c : Ctx) (s : MatState) : Nat := c.scanStart + s.styles.length

/-- `styler.ColourTo (e - 1) sty`: styles every position from the front up
to `e` exclusive with `sty` (a no-op when `e` is not beyond the front,
mirroring the unsigned early-return in `LexAccessor::ColourTo`). -/
def colourUpTo (c : Ctx) (e sty : Nat) (s : MatState) : MatState :=
  { s with styles := s.styles ++ List.replicate (e - startSeg c s) sty }

/-- `sc.SetState ns`: colours the pending token with the current state. -/
def setState (c : Ctx) (ns : Nat) (s : MatState) : MatState :=
  { colourUpTo c s.pos s.state s with state := ns }

/-- `sc.ChangeState ns`. -/
def changeState (ns : Nat) (s : MatState) : MatState := { s with state := ns }

/-- `sc.ForwardSetState ns`. -/
def forwardSetState (c : Ctx) (ns : Nat) (s : MatState) : MatState :=
  setState c ns (fwd c s)

/-- `sc.GetCurrent` into a 128-byte buffer: the pending token text,
truncated to 127 characters. -/
def tokenChars (c : Ctx) (s : MatState) : List Char :=
  ((c.doc.drop (startSeg c s)).take (s.pos - startSeg c s)).take 127

end LexMatlab

namespace LexMatlab

/-- The regex-flag skip loop (LexMatlab.cxx line 221):
`while (chNext is one of i m s x) Forward()`.  The bound check mirrors the
guarded `sc.Forward()`. -/
def skipRegexFlagsGo (c : Ctx) : Nat → MatState → MatState
  | 0, s => s
  | fuel + 1, s =>
    if s.pos < c.doc.length ∧
        (chNext c s = 'i' || chNext c s = 'm' || chNext c s = 's' || chNext c s = 'x') then
      skipRegexFlagsGo c fuel { s with pos := s.pos + 1 }
    else s

def skipRegexFlags (c : Ctx) (s : MatState) : MatState :=
  skipRegexFlagsGo c (c.doc.length + 1) s

/-- The space-skip loop after a Julia `::` (line 348):
`while (IsSpaceOrTab(ch)) Forward()`.  The bound check mirrors the guarded
`sc.Forward()` (out-of-range reads are treated as non-space). -/
def skipSpaceTabGo (c : Ctx) : Nat → MatState → MatState
  | 0, s => s
  | fuel + 1, s =>
    if s.pos < c.doc.length ∧ isSpaceOrTab (charAt c.doc s.pos) then
      skipSpaceTabGo c fuel { s with pos := s.pos + 1 }
    else s

def skipSpaceTab (c : Ctx) (s : MatState) : MatState :=
  skipSpaceTabGo c (c.doc.length + 1) s

/-- `case SCE_MAT_OPERATOR` (lines 125-134). -/
def stOPERATOR (c : Ctx) (s : MatState) : MatState :=
  let s1 := setState c SCE_MAT_DEFAULT s
  if chPrev c s1 = '.' then
    if ch c s1 = '*' || ch c s1 = '/' || ch c s1 = '\\' || ch c s1 = '^' then
      { s1 with isTransposeOperator := false }
    else if ch c s1 = '\'' then { s1 with isTransposeOperator := true }
    else s1
  else s1

/-- `case SCE_MAT_NUMBER` (lines 135-143). -/
def stNUMBER (c : Ctx) (s : MatState) : MatState :=
  if ¬ isMatNumber (ch c s) (chPrev c s) then
    let s1 := if c.lexType = LEX_JULIA && ch c s = 'm' && chPrev c s = 'i' then fwd c s else s
    { setState c SCE_MAT_DEFAULT s1 with isTransposeOperator := true }
  else s

/-- `case SCE_MAT_HEXNUM` (lines 144-149). -/
def stHEXNUM (c : Ctx) (s : MatState) : MatState :=
  if ¬ isHexDigit (ch c s) then
    { setState c SCE_MAT_DEFAULT s with isTransposeOperator := true }
  else s

/-- The keyword-list reclassification on identifier exit (lines 155-175). -/
def stIDENTclassify (c : Ctx) (s0 : MatState) : MatState :=
  let word := tokenChars c s0
  if c.keywords.contains word then
    { changeState SCE_MAT_KEYWORD s0 with isTransposeOperator := false }
  else if c.attributes.contains word then changeState SCE_MAT_ATTRIBUTE s0
  else if c.commands.contains word then changeState SCE_MAT_INTERNALCOMMAND s0
  else if inListFn c.function1 word then changeState SCE_MAT_FUNCTION1 s0
  else if inListFn c.function2 word then changeState SCE_MAT_FUNCTION2 s0
  else
    let chN := getNextNSChar c.doc s0.pos
    if chN = '(' then changeState SCE_MAT_FUNCTION s0
    else if c.lexType = LEX_JULIA && s0.state = SCE_MAT_IDENTIFIER && chN = '{' then
      changeState SCE_MAT_ATTRIBUTE s0
    else s0

/-- The `@` handling and state reset on identifier exit (lines 176-180). -/
def stIDENTfinish (c : Ctx) (s1 : MatState) : MatState :=
  let s2 := if ch c s1 = '@' then fwd c (setState c SCE_MAT_OPERATOR s1) else s1
  setState c SCE_MAT_DEFAULT s2

/-- `case SCE_MAT_IDENTIFIER` / `SCE_MAT_ATTRIBUTE` (lines 150-182). -/
def stIDENT (c : Ctx) (s : MatState) : MatState :=
  if ¬ iswordstart (ch c s) then
    stIDENTfinish c (stIDENTclassify c { s with isTransposeOperator := true })
  else s

/-- `case SCE_MAT_CALLBACK` / `SCE_MAT_VARIABLE` (lines 183-192). -/
def stCALLBACK (c : Ctx) (s : MatState) : MatState :=
  if ¬ iswordstart (ch c s) then
    let s1 := if ch c s = '@' then fwd c (setState c SCE_MAT_OPERATOR s) else s
    setState c SCE_MAT_DEFAULT s1
  else s

/-- `case SCE_MAT_COMMAND` (lines 193-198). -/
def stCOMMAND (c : Ctx) (s : MatState) : MatState :=
  if isInvalidFileName (ch c s) then
    { setState c SCE_MAT_DEFAULT s with isTransposeOperator := false }
  else s

/-- `case SCE_MAT_STRING` (lines 199-211). -/
def stSTRING (c : Ctx) (s : MatState) : MatState :=
  if c.lexType = LEX_JULIA && ch c s = '\\' then
    if chNext c s = '\"' || chNext c s = '\'' || chNext c s = '\\' then fwd c s else s
  else if ch c s = '\'' then
    if chNext c s = '\'' then fwd c s else forwardSetState c SCE_MAT_DEFAULT s
  else s

/-- `case SCE_MAT_DOUBLEQUOTESTRING` / `SCE_MAT_REGEX` / `SCE_MAT_RAW_STRING2`
(lines 212-227). -/
def stDQ (c : Ctx) (s : MatState) : MatState :=
  if ch c s = '\\' then
    if chNext c s = '\"' || chNext c s = '\'' || chNext c s = '\\' then fwd c s else s
  else if ch c s = '\"' then
    let s1 := if s.state = SCE_MAT_REGEX then skipRegexFlags c s else s
    forwardSetState c SCE_MAT_DEFAULT s1
  else s

/-- `case SCE_MAT_TRIPLE_STRING2` (lines 228-233). -/
def stTRIPLE (c : Ctx) (s : MatState) : MatState :=
  if matchAt c.doc s.pos ['\"', '\"', '\"'] then
    forwardSetState c SCE_MAT_DEFAULT (fwd2 c s)
  else s

/-- `case SCE_MAT_BACKTICK` (lines 234-238). -/
def stBACKTICK (c : Ctx) (s : MatState) : MatState :=
  if ch c s = '`' then forwardSetState c SCE_MAT_DEFAULT s else s

/-- `case SCE_MAT_COMMENTBLOCK` (lines 239-255). -/
def stCOMMENTBLOCK (c : Ctx) (s : MatState) : MatState :=
  if isBlockCommentEnd c.lexType c.doc (ch c s) (chNext c s) s.visibleChars s.pos then
    let s1 :=
      if isMatlabOctave c.lexType then
        let cl := s.commentLevel - 1
        { s with commentLevel := if cl < 0 then 0 else cl }
      else s
    if s1.commentLevel = 0 then forwardSetState c SCE_MAT_DEFAULT (fwd c s1) else s1
  else if isNestedCommentStart c.lexType c.doc (ch c s) (chNext c s) s.visibleChars s.pos then
    fwd c { s with commentLevel := s.commentLevel + 1 }
  else s

/-- `case SCE_MAT_COMMENT` (lines 256-262). -/
def stCOMMENT (c : Ctx) (s : MatState) : MatState :=
  if atLineStartPos c.doc s.pos then
    { setState c SCE_MAT_DEFAULT { s with visibleChars := 0 } with isTransposeOperator := false }
  else s

/-- The `switch (sc.state)` dispatch (lines 124-263). -/
def matchState (c : Ctx) (s : MatState) : MatState :=
  if s.state = SCE_MAT_OPERATOR then stOPERATOR c s
  else if s.state = SCE_MAT_NUMBER then stNUMBER c s
  else if s.state = SCE_MAT_HEXNUM then stHEXNUM c s
  else if s.state = SCE_MAT_IDENTIFIER || s.state = SCE_MAT_ATTRIBUTE then stIDENT c s
  else if s.state = SCE_MAT_CALLBACK || s.state = SCE_MAT_VARIABLE then stCALLBACK c s
  else if s.state = SCE_MAT_COMMAND then stCOMMAND c s
  else if s.state = SCE_MAT_STRING then stSTRING c s
  else if s.state = SCE_MAT_DOUBLEQUOTESTRING || s.state = SCE_MAT_REGEX
      || s.state = SCE_MAT_RAW_STRING2 then stDQ c s
  else if s.state = SCE_MAT_TRIPLE_STRING2 then stTRIPLE c s
  else if s.state = SCE_MAT_BACKTICK then stBACKTICK c s
  else if s.state = SCE_MAT_COMMENTBLOCK then stCOMMENTBLOCK c s
  else if s.state = SCE_MAT_COMMENT then stCOMMENT c s
  else s

end LexMatlab

namespace LexMatlab

/-- The Octave `%!` test-annotation handling inside the line-comment branch
(lines 288-306); entered with the state already set to `SCE_MAT_COMMENT`. -/
def dfLineComment (c : Ctx) (s1 : MatState) : MatState :=
  if c.lexType = LEX_OCTAVE && atLineStartPos c.doc s1.pos
      && ch c s1 = '%' && chNext c s1 = '!' then
    let p2 := s1.pos + 2
    let s2 :=
      if ¬ s1.hasTest && (matchAt c.doc p2 "test".toList || matchAt c.doc p2 "demo".toList
          || matchAt c.doc p2 "assert".toList || matchAt c.doc p2 "error".toList
          || matchAt c.doc p2 "warning".toList || matchAt c.doc p2 "fail".toList
          || matchAt c.doc p2 "shared".toList || matchAt c.doc p2 "function".toList) then
        { s1 with hasTest := true }
      else s1
    if s2.hasTest then
      let s3 := fwd2 c s2
      if iswordstart (ch c s3) then setState c SCE_MAT_IDENTIFIER s3
      else setState c SCE_MAT_DEFAULT s3
    else s2
  else if ch c s1 = '.' then fwd2 c s1
  else s1

/-- The `raw"` string handling of the default dispatch (lines 272-278). -/
def dfRawString (c : Ctx) (s : MatState) : MatState :=
  let s1 := fwd3 c (setState c SCE_MAT_RAW_STRING2 s)
  if matchAt c.doc s1.pos ['\"', '\"', '\"'] then
    fwd2 c (changeState SCE_MAT_TRIPLE_STRING2 s1)
  else s1

/-- The operator branch of the default dispatch (lines 336-352), including
the Julia `::` / `<:` attribute tail. -/
def dfOperator (c : Ctx) (s : MatState) : MatState :=
  let s1 := setState c SCE_MAT_OPERATOR s
  let s2 := { s1 with
    isTransposeOperator := (ch c s1 = ')' || ch c s1 = ']' || ch c s1 = '}') }
  if c.lexType = LEX_JULIA && (ch c s2 = ':' || ch c s2 = '<') && chNext c s2 = ':' then
    let s3 := setState c SCE_MAT_DEFAULT (fwd2 c s2)
    setState c SCE_MAT_ATTRIBUTE (skipSpaceTab c s3)
  else s2

/-- The default-state dispatch (lines 265-356), run when the state is
`SCE_MAT_DEFAULT` after the switch. -/
def defaultDispatch (c : Ctx) (s : MatState) : MatState :=
  if c.lexType = LEX_JULIA && ch c s = 'r' && chNext c s = '\"' then
    fwd c (setState c SCE_MAT_REGEX s)
  else if c.lexType = LEX_JULIA
      && (ch c s = 'b' || ch c s = 'L' || ch c s = 'I' || ch c s = 'E' || ch c s = 'v')
      && chNext c s = '\"' then
    fwd c (setState c SCE_MAT_DOUBLEQUOTESTRING s)
  else if matchAt c.doc s.pos "raw\"".toList then
    dfRawString c s
  else if isBlockCommentStart c.lexType c.doc (ch c s) (chNext c s) s.visibleChars s.pos then
    let s1 := if isMatlabOctave c.lexType then { s with commentLevel := s.commentLevel + 1 } else s
    fwd c (setState c SCE_MAT_COMMENTBLOCK s1)
  else if isLineCommentStart c.lexType c.doc s.pos s.visibleChars then
    dfLineComment c (setState c SCE_MAT_COMMENT s)
  else if isMatlabOctave c.lexType && s.visibleChars = 0 && ch c s = '!' then
    setState c SCE_MAT_COMMAND s
  else if matchAt c.doc s.pos ['\"', '\"', '\"'] then
    fwd2 c (setState c SCE_MAT_TRIPLE_STRING2 s)
  else if ch c s = '\'' then
    if s.isTransposeOperator then setState c SCE_MAT_OPERATOR s
    else setState c SCE_MAT_STRING s
  else if ch c s = '\"' then setState c SCE_MAT_DOUBLEQUOTESTRING s
  else if ch c s = '`' then setState c SCE_MAT_BACKTICK s
  else if ch c s = '0' && (chNext c s = 'x' || chNext c s = 'X') then
    fwd c (setState c SCE_MAT_HEXNUM s)
  else if isADigit (ch c s) || (ch c s = '.' && isADigit (chNext c s)) then
    setState c SCE_MAT_NUMBER s
  else if ch c s = '@' && iswordstart (chNext c s) then
    fwd c (setState c SCE_MAT_CALLBACK s)
  else if ch c s = '$' && iswordstart (chNext c s) then
    fwd c (setState c SCE_MAT_VARIABLE s)
  else if iswordstart (ch c s) then setState c SCE_MAT_IDENTIFIER s
  else if isMatOperator (ch c s) then dfOperator c s
  else { s with isTransposeOperator := false }

/-- One iteration of the scan loop body (lines 123-366): the state switch,
the default-state dispatch, the line-state update at line ends, and the
visible-character count. -/
def bodyStep (c : Ctx) (s : MatState) : MatState :=
  let s1 := matchState c s
  let s2 := if s1.state = SCE_MAT_DEFAULT then defaultDispatch c s1 else s1
  let s3 :=
    if atLineEndPos c.doc s2.pos then
      { s2 with lineStates := s2.lineStates ++ [(s2.lineCurrent, s2.commentLevel)],
                lineCurrent := s2.lineCurrent + 1, visibleChars := 0 }
    else s2
  if ¬ isspacechar (ch c s3) then { s3 with visibleChars := s3.visibleChars + 1 } else s3

/-- The scan loop `for (; sc.More(); sc.Forward())`, fuelled, stopping when
the cursor reaches `target` (the end of the scanned range, or an earlier
observation point). -/
def scanLoopT (c : Ctx) : Nat → Nat → MatState → MatState
  | 0, _, s => s
  | fuel + 1, target, s =>
    if s.pos < target then scanLoopT c fuel target (fwd c (bodyStep c s)) else s

/-- The initial scan state of `ColouriseMatlabDoc` (lines 113-121) for an
invocation starting at `c.scanStart`; `initLevel` is the line state of the
preceding line as the host hands it over (zero for line 0). -/
def initState (c : Ctx) (initStyle : Nat) (initLevel : Int) : MatState :=
  { pos := c.scanStart, state := initStyle, styles := [], commentLevel := initLevel,
    visibleChars := 0, isTransposeOperator := false, hasTest := false,
    lineCurrent := lineOf c.doc c.scanStart, lineStates := [] }

/-- `ColouriseMatlabDoc` run over `[c.scanStart, doc.length)`, ending with
`sc.Complete()` which colours the pending tail. -/
def colouriseMatlabDoc (c : Ctx) (initStyle : Nat) (initLevel : Int) : MatState :=
  let sEnd := scanLoopT c (c.doc.length + 1) c.doc.length (initState c initStyle initLevel)
  colourUpTo c sEnd.pos sEnd.state sEnd

/-- The style the finished scan assigned to position `p`. -/
def styleAt (c : Ctx) (s : MatState) (p : Nat) : Nat :=
  s.styles.getD (p - c.scanStart) 0

/-- The line state the scan left for `line` (last `SetLineState` write). -/
def lineStateAt (s : MatState) (line : Nat) : Option Int :=
  (s.lineStates.filter (fun q => q.1 = line)).getLast?.map (fun q => q.2)

end LexMatlab

namespace LexMatlab

/-! Embedding of `FoldMatlabDoc` (LexMatlab.cxx lines 372-519) and the
lexlib helpers it uses. -/

def SC_FOLDLEVELBASE : Int := 0x400

/-- `IsMatEndChar` (line 373). -/
def isMatEndChar (chEnd : Char) (style : Nat) : Bool :=
  (chEnd = '\r' || chEnd = '\n' || chEnd = ';')
  || (style = SCE_MAT_COMMENT || style = SCE_MAT_COMMENTBLOCK)

/-- `IsStreamCommentStyle` (line 378). -/
def isStreamCommentStyle (style : Nat) : Bool := style = SCE_MAT_COMMENTBLOCK

/-- `IsSripleStringStyle` (line 382). -/
def isSripleStringStyle (style : Nat) : Bool := style = SCE_MAT_TRIPLE_STRING2

/-- The word-character variant of `LexGetRange` (LexAccessor.cxx line 154):
the characters the loop writes into the buffer before the terminator
(index `i` runs while `i < len - 1` and the character satisfies the
predicate). -/
def lexGetRangeGo (doc : Doc) (startPos : Nat) (pred : Char → Bool) (len : Nat) :
    Nat → Nat → List Char
  | 0, _ => []
  | fuel + 1, i =>
    if i < len - 1 ∧ pred (charAt doc (startPos + i)) then
      charAt doc (startPos + i) :: lexGetRangeGo doc startPos pred len fuel (i + 1)
    else []

/-- `LexGetRange(startPos, styler, IsWordChar, s, len)`: the word written
into the buffer (the return value of the C function is its length). -/
def lexGetRangeWord (doc : Doc) (startPos : Nat) (pred : Char → Bool) (len : Nat) :
    List Char :=
  lexGetRangeGo doc startPos pred len len 0

/-- `LexSkipSpaceTab(startPos, endPos, styler)` from LexAccessor.h.
Modelled from the spec: skips the whitespace between a class-section
keyword and the following character (§4.2 "followed (after whitespace)"),
with the same loop shape as the `LexSkipWhiteSpace` family in
LexAccessor.cxx: the first position in `[pos, endPos)` that is not a space
or tab, `endPos` when none. -/
def lexSkipSpaceTabGo (doc : Doc) (endP : Nat) : Nat → Nat → Nat
  | 0, _ => endP
  | fuel + 1, pos =>
    if pos < endP then
      if isSpaceOrTab (charAt doc pos) then lexSkipSpaceTabGo doc endP fuel (pos + 1) else pos
    else endP

def lexSkipSpaceTab (doc : Doc) (pos endP : Nat) : Nat :=
  lexSkipSpaceTabGo doc endP (endP + 1) pos

/-- `LexGetNextChar(pos, styler)` from LexAccessor.h.
Modelled from the spec: the next non-whitespace character at or after
`pos` (used for "immediately followed by `(`", §4.2), NUL when the rest of
the document is blank. -/
def lexGetNextCharGo (doc : Doc) : Nat → Nat → Char
  | 0, _ => Char.ofNat 0
  | fuel + 1, pos =>
    if pos < doc.length then
      if isSpaceOrTab (charAt doc pos) then lexGetNextCharGo doc fuel (pos + 1)
      else charAt doc pos
    else Char.ofNat 0

def lexGetNextChar (doc : Doc) (pos : Nat) : Char :=
  lexGetNextCharGo doc (doc.length + 1) pos

/-- The unpack-and-compare loop of `IsLexCommentLine` (LexAccessor.cxx
lines 84-87): `while (style != 0 && stl != (style & 0xFF)) style >>= 8;
return style != 0`. -/
def styleShiftMatchGo (stl : Nat) : Nat → Nat → Bool
  | 0, _ => false
  | fuel + 1, style =>
    if style = 0 then false
    else if stl = style % 256 then true
    else styleShiftMatchGo stl fuel (style / 256)

def styleShiftMatch (style stl : Nat) : Bool :=
  styleShiftMatchGo stl (style + 1) style

/-- Body loop of `IsLexCommentLine` over `[pos, endP)`. -/
def isLexCommentLineGo (doc : Doc) (styles : List Nat) (endP style : Nat) :
    Nat → Nat → Bool
  | 0, _ => false
  | fuel + 1, pos =>
    if pos < endP then
      if ¬ isSpaceOrTab (charAt doc pos) then
        let stl := styles.getD pos 0
        if stl = 0 ∧ stl ≠ style then false else styleShiftMatch style stl
      else isLexCommentLineGo doc styles endP style fuel (pos + 1)
    else false

/-- `IsLexCommentLine` (LexAccessor.cxx line 74); `line` may be negative
(the fold pass asks about `lineCurrent - 1`), in which case the scanned
range is empty. -/
def isLexCommentLine (doc : Doc) (styles : List Nat) (line : Int) (style : Nat) : Bool :=
  if line < 0 then false
  else
    let ln := line.toNat
    let endP := lineStartPos doc (ln + 1) - 1
    isLexCommentLineGo doc styles endP style (endP + 1) (lineStartPos doc ln)

/-- Parameters of one `FoldMatlabDoc` invocation. -/
structure FoldCtx where
  doc : Doc
  styles : List Nat
  lexType : Nat
  foldComment : Bool
  foldCompact : Bool
  startPos : Nat
  endPos : Nat
  initStyle : Nat
deriving Repr

/-- One committed fold level: the packed `lev` word of the source kept
unpacked (`levelUse`, `levelNext`, the white and header flags). -/
structure FoldLine where
  line : Nat
  levelUse : Int
  levelNext : Int
  white : Bool
  header : Bool
deriving Repr, DecidableEq

/-- The running state of the fold loop. -/
structure FoldState where
  numBrace : Int
  visibleChars : Nat
  lineCurrent : Nat
  levelCurrent : Int
  levelNext : Int
  levels : List FoldLine
deriving Repr, DecidableEq

/-- `ch` at iteration `i` of the fold loop. -/
def fch (f : FoldCtx) (i : Nat) : Char := charAt f.doc i

/-- `chPrev` at iteration `i` (NUL on the first iteration, line 403). -/
def fchPrev (f : FoldCtx) (i : Nat) : Char :=
  if i = f.startPos then Char.ofNat 0 else charAt f.doc (i - 1)

/-- `chNext` at iteration `i`. -/
def fchNext (f : FoldCtx) (i : Nat) : Char := charAt f.doc (i + 1)

/-- `style` at iteration `i`. -/
def fStyle (f : FoldCtx) (i : Nat) : Nat := f.styles.getD i 0

/-- `stylePrev` at iteration `i` (`initStyle` on the first iteration). -/
def fStylePrev (f : FoldCtx) (i : Nat) : Nat :=
  if i = f.startPos then f.initStyle else f.styles.getD (i - 1) 0

/-- `styleNext` at iteration `i`. -/
def fStyleNext (f : FoldCtx) (i : Nat) : Nat := f.styles.getD (i + 1) 0

/-- `atEOL` at iteration `i` (line 415). -/
def fAtEOL (f : FoldCtx) (i : Nat) : Bool :=
  (fch f i = '\r' && fchNext f i ≠ '\n') || fch f i = '\n'

/-- The three `foldComment` contribution blocks (lines 417-444). -/
def foldCommentBlocks (f : FoldCtx) (i : Nat) (fs : FoldState) : FoldState :=
  let fs1 :=
    if f.foldComment && isStreamCommentStyle (fStyle f i) then
      if isMatlabOctave f.lexType then
        if isNestedCommentStart f.lexType f.doc (fch f i) (fchNext f i) fs.visibleChars i then
          { fs with levelNext := fs.levelNext + 1 }
        else if isNestedCommentEnd f.lexType f.doc (fch f i) (fchNext f i) fs.visibleChars i then
          { fs with levelNext := fs.levelNext - 1 }
        else fs
      else
        if ¬ isStreamCommentStyle (fStylePrev f i) then
          { fs with levelNext := fs.levelNext + 1 }
        else if ¬ isStreamCommentStyle (fStyleNext f i) && ¬ fAtEOL f i then
          { fs with levelNext := fs.levelNext - 1 }
        else fs
    else fs
  let fs2 :=
    if f.foldComment && fAtEOL f i
        && isLexCommentLine f.doc f.styles (Int.ofNat fs1.lineCurrent) SCE_MAT_COMMENT then
      if ¬ isLexCommentLine f.doc f.styles (Int.ofNat fs1.lineCurrent - 1) SCE_MAT_COMMENT
          && isLexCommentLine f.doc f.styles (Int.ofNat fs1.lineCurrent + 1) SCE_MAT_COMMENT then
        { fs1 with levelNext := fs1.levelNext + 1 }
      else if isLexCommentLine f.doc f.styles (Int.ofNat fs1.lineCurrent - 1) SCE_MAT_COMMENT
          && ¬ isLexCommentLine f.doc f.styles (Int.ofNat fs1.lineCurrent + 1) SCE_MAT_COMMENT then
        { fs1 with levelNext := fs1.levelNext - 1 }
      else fs1
    else fs1
  if f.foldComment && isSripleStringStyle (fStyle f i) then
    if ¬ isSripleStringStyle (fStylePrev f i) then
      { fs2 with levelNext := fs2.levelNext + 1 }
    else if ¬ isSripleStringStyle (fStyleNext f i) && ¬ fAtEOL f i then
      { fs2 with levelNext := fs2.levelNext - 1 }
    else fs2
  else fs2

/-- The keyword contribution block (lines 446-489). -/
def foldKeywordBlock (f : FoldCtx) (i : Nat) (fs : FoldState) : FoldState :=
  if fStyle f i = SCE_MAT_KEYWORD && fStylePrev f i ≠ SCE_MAT_KEYWORD && fs.numBrace = 0
      && fchPrev f i ≠ '.' && fchPrev f i ≠ ':' then
    let word := lexGetRangeWord f.doc i iswordstart 32
    let len := word.length
    if (word = "function".toList && ((f.lexType = LEX_JULIA)
          || (¬ (f.lexType = LEX_JULIA) && lexGetNextChar f.doc (i + len) ≠ '(')))
        || word = "if".toList
        || word = "for".toList
        || word = "while".toList
        || word = "try".toList
        || (isMatlabOctave f.lexType && (word = "switch".toList || word = "classdef".toList
            || word = "parfor".toList))
        || (f.lexType = LEX_OCTAVE && (word = "do".toList || word = "unwind_protect".toList))
        || (f.lexType = LEX_SCILAB && word = "select".toList)
        || (f.lexType = LEX_JULIA && (word = "type".toList || word = "quote".toList
            || word = "let".toList || word = "macro".toList || word = "do".toList
            || word = "struct".toList
            || word = "begin".toList || word = "module".toList)) then
      { fs with levelNext := fs.levelNext + 1 }
    else if f.lexType = LEX_OCTAVE && word = "until".toList then
      { fs with levelNext := fs.levelNext - 1 }
    else if matchAt f.doc i "end".toList then
      { fs with levelNext := fs.levelNext - 1 }
    else if isMatlabOctave f.lexType && fchPrev f i ≠ '@' && (word = "methods".toList
        || word = "properties".toList || word = "events".toList
        || word = "enumeration".toList) then
      let pos := lexSkipSpaceTab f.doc (i + len) f.endPos
      let chEnd := charAt f.doc pos
      if isMatEndChar chEnd (f.styles.getD pos 0) then
        { fs with levelNext := fs.levelNext + 1 }
      else if chEnd = '(' then
        let pos2 := lexSkipSpaceTab f.doc (pos + 1) f.endPos
        if f.styles.getD pos2 0 = SCE_MAT_ATTRIBUTE then
          { fs with levelNext := fs.levelNext + 1 }
        else fs
      else fs
    else fs
  else fs

/-- The bracket contribution block (lines 491-499). -/
def foldBraceBlock (f : FoldCtx) (i : Nat) (fs : FoldState) : FoldState :=
  if fStyle f i = SCE_MAT_OPERATOR then
    if fch f i = '{' || fch f i = '[' || fch f i = '(' then
      { fs with levelNext := fs.levelNext + 1, numBrace := fs.numBrace + 1 }
    else if fch f i = '}' || fch f i = ']' || fch f i = ')' then
      { fs with levelNext := fs.levelNext - 1, numBrace := fs.numBrace - 1 }
    else fs
  else fs

/-- The per-line commit block (lines 504-517). -/
def foldLineCommit (f : FoldCtx) (i : Nat) (fs : FoldState) : FoldState :=
  if fAtEOL f i || i + 1 = f.endPos then
    let entry : FoldLine :=
      { line := fs.lineCurrent, levelUse := fs.levelCurrent, levelNext := fs.levelNext,
        white := (fs.visibleChars = 0 && f.foldCompact),
        header := decide (fs.levelCurrent < fs.levelNext) }
    { fs with
      levels := fs.levels ++ [entry],
      lineCurrent := fs.lineCurrent + 1,
      levelCurrent := fs.levelNext,
      visibleChars := 0 }
  else fs

/-- One iteration of the fold loop body (lines 408-517). -/
def foldStep (f : FoldCtx) (i : Nat) (fs : FoldState) : FoldState :=
  let fs1 := foldCommentBlocks f i fs
  let fs2 := foldKeywordBlock f i fs1
  let fs3 := foldBraceBlock f i fs2
  let fs4 := if ¬ isspacechar (fch f i) then { fs3 with visibleChars := fs3.visibleChars + 1 }
    else fs3
  foldLineCommit f i fs4

/-- The fold loop `for (i = startPos; i < endPos; i++)`. -/
def foldLoop (f : FoldCtx) : Nat → Nat → FoldState → FoldState
  | 0, _, fs => fs
  | fuel + 1, i, fs =>
    if i < f.endPos then foldLoop f fuel (i + 1) (foldStep f i fs) else fs

/-- `FoldMatlabDoc` (line 389): `initLevel` is `levelCurrent` as read back
from the host store (`SC_FOLDLEVELBASE` when starting at line 0). -/
def foldMatlabDoc (f : FoldCtx) (initLevel : Int) : FoldState :=
  foldLoop f (f.endPos - f.startPos) f.startPos
    { numBrace := 0, visibleChars := 0, lineCurrent := lineOf f.doc f.startPos,
      levelCurrent := initLevel, levelNext := initLevel, levels := [] }

end LexMatlab

namespace LexMatlab

/-! Concrete scan configurations used to instantiate the claims.  The
keyword sets are host configuration (spec §6); `kwBlocks` is a minimal
configuration containing the block keywords the instances exercise. -/

/-- A context with the given buffer, dialect and keyword list (the other
four word lists empty), scanning from `start`. -/
def mkCtx (doc : Doc) (lt : Nat) (kws : List (List Char)) (start : Nat) : Ctx :=
  { doc := doc, lexType := lt, keywords := kws, attributes := [], commands := [],
    function1 := [], function2 := [], scanStart := start }

def kwBlocks : List (List Char) := ["if".toList, "for".toList, "end".toList]

/-- Run `ColouriseMatlabDoc` over `[start, doc.length)`. -/
def scanFrom (doc : Doc) (lt : Nat) (kws : List (List Char)) (start initStyle : Nat)
    (initLevel : Int) : MatState :=
  colouriseMatlabDoc (mkCtx doc lt kws start) initStyle initLevel

/-- Colour the whole buffer, then run `FoldMatlabDoc` over it
(`fold.comment` off, `fold.compact` on, the defaults of lines 391-392). -/
def scanThenFold (doc : Doc) (lt : Nat) (kws : List (List Char)) : FoldState :=
  foldMatlabDoc
    { doc := doc, styles := (scanFrom doc lt kws 0 SCE_MAT_DEFAULT 0).styles, lexType := lt,
      foldComment := false, foldCompact := true, startPos := 0, endPos := doc.length,
      initStyle := SCE_MAT_DEFAULT } SC_FOLDLEVELBASE

/-- `a'b'c'` — every quote directly follows an identifier. -/
def docTransposeChain : Doc := ['a', '\'', 'b', '\'', 'c', '\'']

/-- `'abc'` — quote at start of statement. -/
def docLeadingQuote : Doc := ['\'', 'a', 'b', 'c', '\'']

/-- The MATLAB nested-block-comment document of the spec,
`%{ NL %{ NL x NL %} NL %} NL`. -/
def docNested : Doc := "%\x7b\n%\x7b\nx\n%\x7d\n%\x7d\n".toList

/-- The Julia block-comment document `#= outer #= inner =# still-comment =#`. -/
def docJuliaCmt : Doc := "#= outer #= inner =# still-comment =#".toList

/-- `1.2.3` — a digit run with two non-consecutive dots. -/
def docTwoDots : Doc := "1.2.3".toList

/-- `x = [if, for]` with a newline. -/
def docBracketKw : Doc := "x = [if, for]\n".toList

/-- The same line with the closing bracket removed. -/
def docBracketKwOpen : Doc := "x = [if, for\n".toList

/-- Octave `%!test NL %!foo NL`: the first line arms the sticky test flag. -/
def docOctaveTest : Doc := "%!test\n%!foo\n".toList

/-- Octave `%!foo NL` alone: no test keyword, the flag stays off. -/
def docOctaveNoTest : Doc := "%!foo\n".toList

/-- MATLAB `a/* NL */'b' NL`: a C-style block comment crossing the line
boundary while `isTransposeOperator` is `true` from the identifier `a`. -/
def docCmtTranspose : Doc := "a/*\n*/".toList ++ ['\'', 'b', '\''] ++ ['\n']

/-- `%{ NL x NL %} NL`: a MATLAB block comment crossing line boundaries. -/
def docNestedSmall : Doc := "%\x7b\nx\n%\x7d\n".toList

/-- The writes the word-variant `LexGetRange` performs on its output
buffer: the copied characters at indices `0..` and the NUL terminator
right after them. -/
def lexGetRangeWrites (doc : Doc) (startPos : Nat) (pred : Char → Bool) (len : Nat) :
    List (Nat × Char) :=
  let w := lexGetRangeWord doc startPos pred len
  (List.range w.length).zip w ++ [(w.length, Char.ofNat 0)]

end LexMatlab

namespace LexMatlab

/-- The context of a re-scan of the suffix `[L, doc.length)` of the same
document with the same configuration. -/
def rescanCtx (c : Ctx) (L : Nat) : Ctx := { c with scanStart := L }

/-- Projection of a full-scan state onto a suffix re-scan starting at the
line boundary `L`: the styles before `L` and the first `K` line-state
writes (those of the lines before `L`) fall away. -/
def phi (L K : Nat) (s : MatState) : MatState :=
  { s with styles := s.styles.drop L, lineStates := s.lineStates.drop K }

/-- The running bounds of a scan state: the styling front
`scanStart + styles.length` has not passed the cursor, the cursor is inside
the scanned range, and the cursor has not moved below the lower bound
`lo`. -/
def ScanBounds (c : Ctx) (lo : Nat) (s : MatState) : Prop :=
  (c.scanStart + s.styles.length ≤ s.pos ∧ s.pos ≤ c.doc.length) ∧ lo ≤ s.pos

/-- Whenever the scanner is inside an identifier or attribute token (the
two states whose exit handler reads the pending token text back from the
styling front), the front has reached the re-scan boundary `L`, so the
token does not straddle the boundary. -/
def FrontOk (L : Nat) (s : MatState) : Prop :=
  (s.state = SCE_MAT_IDENTIFIER ∨ s.state = SCE_MAT_ATTRIBUTE) → L ≤ s.styles.length

/-- The full-scan context of the nested-comment document, scanned from 0. -/
def rsFullCtx : Ctx := mkCtx docNestedSmall LEX_MATLAB [] 0

/-- The full scan of `docNestedSmall` observed at the boundary position 3
(the start of its second line). -/
def rsMid : MatState :=
  scanLoopT rsFullCtx (rsFullCtx.doc.length + 1) 3 (initState rsFullCtx SCE_MAT_DEFAULT 0)

/-! Field-preservation lemmas for the scanner primitives. -/

theorem fwd_commentLevel (c : Ctx) (s : MatState) :
    (fwd c s).commentLevel = s.commentLevel := by
  simp only [fwd]; split <;> rfl

theorem fwd_state (c : Ctx) (s : MatState) : (fwd c s).state = s.state := by
  simp only [fwd]; split <;> rfl

theorem setState_commentLevel (c : Ctx) (ns : Nat) (s : MatState) :
    (setState c ns s).commentLevel = s.commentLevel := rfl

theorem forwardSetState_commentLevel (c : Ctx) (ns : Nat) (s : MatState) :
    (forwardSetState c ns s).commentLevel = s.commentLevel := by
  simp only [forwardSetState, setState_commentLevel, fwd_commentLevel]

/-- C3 counterexample: scanning `a'b'c'` (MATLAB) tags every quote as an
operator — each quote directly follows an identifier — so no single-quoted
string is opened anywhere; the claim asserts the `'...'` following the
first transpose is tagged string. -/
theorem claim_C3_counterexample :
    (scanFrom docTransposeChain LEX_MATLAB [] 0 SCE_MAT_DEFAULT 0).styles
      = [SCE_MAT_IDENTIFIER, SCE_MAT_OPERATOR, SCE_MAT_IDENTIFIER, SCE_MAT_OPERATOR,
         SCE_MAT_IDENTIFIER, SCE_MAT_OPERATOR]
    ∧ ¬ SCE_MAT_STRING ∈ (scanFrom docTransposeChain LEX_MATLAB [] 0 SCE_MAT_DEFAULT 0).styles := by
  decide

/-- C3 (amended): a `'` reached in the default state is tagged operator
(transpose) exactly when the `isTransposeOperator` flag is set, and opens a
single-quoted string otherwise; consequently in `a'b'c'` all three quotes
are transpose operators (each follows an identifier), and in `'abc'` at
start of statement the leading quote opens a string. -/
theorem claim_C3 :
    (∀ (c : Ctx) (s : MatState), ch c s = '\'' →
      (defaultDispatch c s).state
        = (if s.isTransposeOperator then SCE_MAT_OPERATOR else SCE_MAT_STRING))
    ∧ (scanFrom docTransposeChain LEX_MATLAB [] 0 SCE_MAT_DEFAULT 0).styles
        = [SCE_MAT_IDENTIFIER, SCE_MAT_OPERATOR, SCE_MAT_IDENTIFIER, SCE_MAT_OPERATOR,
           SCE_MAT_IDENTIFIER, SCE_MAT_OPERATOR]
    ∧ (scanFrom docLeadingQuote LEX_MATLAB [] 0 SCE_MAT_DEFAULT 0).styles
        = [SCE_MAT_STRING, SCE_MAT_STRING, SCE_MAT_STRING, SCE_MAT_STRING, SCE_MAT_STRING] := by
  refine ⟨?_, by decide, by decide⟩
  intro c s h
  have hc : charAt c.doc s.pos = '\'' := h
  simp [defaultDispatch, matchAt, hc, ch, isBlockCommentStart, isNestedCommentStart,
    isLineCommentStart, isMatlabOctave, setState]
  split <;> simp

/-- C3 witness: the quote-dispatch rule evaluated at the concrete scan of
`'abc'` from its start state, where the flag is off and a string opens. -/
theorem claim_C3_witness :
    ch (mkCtx docLeadingQuote LEX_MATLAB [] 0) (initState (mkCtx docLeadingQuote LEX_MATLAB [] 0) SCE_MAT_DEFAULT 0) = '\''
    ∧ (defaultDispatch (mkCtx docLeadingQuote LEX_MATLAB [] 0)
        (initState (mkCtx docLeadingQuote LEX_MATLAB [] 0) SCE_MAT_DEFAULT 0)).state
      = (if (initState (mkCtx docLeadingQuote LEX_MATLAB [] 0) SCE_MAT_DEFAULT 0).isTransposeOperator
          then SCE_MAT_OPERATOR else SCE_MAT_STRING) :=
  ⟨by decide, claim_C3.1 _ _ (by decide)⟩

/-- C4: on the MATLAB document `%{ %{ x %} %}` (one marker per line) every
position up to the final newline is styled block comment — both `%{` and
both `%}` are block-comment tokens and `x` is comment content — and the
persisted per-line states are 1, 2, 2, 1, 0: depth 2 after the second `%{`
and 0 after the second `%}`.  In general (any MATLAB/Octave state) a
nested-comment close decrements the depth clamped at zero, and a
nested-comment open inside a block comment increments it by one. -/
theorem claim_C4 :
    ((scanFrom docNested LEX_MATLAB [] 0 SCE_MAT_DEFAULT 0).styles
        = List.replicate 13 SCE_MAT_COMMENTBLOCK ++ [SCE_MAT_DEFAULT]
      ∧ (scanFrom docNested LEX_MATLAB [] 0 SCE_MAT_DEFAULT 0).lineStates
        = [(0, 1), (1, 2), (2, 2), (3, 1), (4, 0)])
    ∧ (∀ (c : Ctx) (s : MatState), isMatlabOctave c.lexType = true →
        isBlockCommentEnd c.lexType c.doc (ch c s) (chNext c s) s.visibleChars s.pos = true →
        (stCOMMENTBLOCK c s).commentLevel = max 0 (s.commentLevel - 1))
    ∧ (∀ (c : Ctx) (s : MatState),
        isBlockCommentEnd c.lexType c.doc (ch c s) (chNext c s) s.visibleChars s.pos = false →
        isNestedCommentStart c.lexType c.doc (ch c s) (chNext c s) s.visibleChars s.pos = true →
        (stCOMMENTBLOCK c s).commentLevel = s.commentLevel + 1) := by
  refine ⟨⟨by decide, by decide⟩, ?_, ?_⟩
  · intro c s h1 h2
    simp only [stCOMMENTBLOCK, h1, h2, if_true]
    by_cases hc : s.commentLevel - 1 < 0
    · simp only [hc, if_true]
      simp only [forwardSetState_commentLevel, fwd_commentLevel]
      omega
    · simp only [hc, if_false]
      split <;> simp only [forwardSetState_commentLevel, fwd_commentLevel] <;> omega
  · intro c s h1 h2
    simp [stCOMMENTBLOCK, h1, h2, fwd_commentLevel]

/-- C4 witness: the clamp rule at the closing `%}` (depth 1 → 0) and the
increment rule at the inner `%{` (depth 1 → 2) of concrete documents. -/
theorem claim_C4_witness :
    (isMatlabOctave LEX_MATLAB = true
      ∧ isBlockCommentEnd LEX_MATLAB docNestedSmall '%' '\x7d' 0 5 = true
      ∧ (stCOMMENTBLOCK (mkCtx docNestedSmall LEX_MATLAB [] 0)
          { pos := 5, state := SCE_MAT_COMMENTBLOCK, styles := List.replicate 5 SCE_MAT_COMMENTBLOCK,
            commentLevel := 1, visibleChars := 0, isTransposeOperator := false,
            hasTest := false, lineCurrent := 2, lineStates := [] }).commentLevel = max 0 (1 - 1))
    ∧ ((stCOMMENTBLOCK (mkCtx docNested LEX_MATLAB [] 0)
          { pos := 3, state := SCE_MAT_COMMENTBLOCK, styles := List.replicate 3 SCE_MAT_COMMENTBLOCK,
            commentLevel := 1, visibleChars := 0, isTransposeOperator := false,
            hasTest := false, lineCurrent := 1, lineStates := [(0, 1)] }).commentLevel = 1 + 1) := by
  refine ⟨⟨by decide, by decide, ?_⟩, ?_⟩
  · exact claim_C4.2.1 _ _ (by decide) (by decide)
  · exact claim_C4.2.2 _ _ (by decide) (by decide)

/-- C6: on `x = [if, for]` (MATLAB, `if`/`for`/`end` configured keywords)
the scanner styles `if` and `for` as keywords, yet the fold pass leaves the
line level unchanged (level 0x400 → 0x400, no fold header): the nonzero
bracket counter suppresses keyword folding, while `[` and `]` contribute
their own +1/−1.  Dropping the `]` leaves the `[` contribution: the line
ends one level up (0x401) and becomes a fold header, and the suppressed
keywords still contribute nothing. -/
theorem claim_C6 :
    (scanFrom docBracketKw LEX_MATLAB kwBlocks 0 SCE_MAT_DEFAULT 0).styles
      = [SCE_MAT_IDENTIFIER, SCE_MAT_DEFAULT, SCE_MAT_OPERATOR, SCE_MAT_DEFAULT,
         SCE_MAT_OPERATOR, SCE_MAT_KEYWORD, SCE_MAT_KEYWORD, SCE_MAT_OPERATOR,
         SCE_MAT_DEFAULT, SCE_MAT_KEYWORD, SCE_MAT_KEYWORD, SCE_MAT_KEYWORD,
         SCE_MAT_OPERATOR, SCE_MAT_DEFAULT]
    ∧ (scanThenFold docBracketKw LEX_MATLAB kwBlocks).levels
      = [{ line := 0, levelUse := SC_FOLDLEVELBASE, levelNext := SC_FOLDLEVELBASE,
           white := false, header := false }]
    ∧ (scanThenFold docBracketKwOpen LEX_MATLAB kwBlocks).levels
      = [{ line := 0, levelUse := SC_FOLDLEVELBASE, levelNext := SC_FOLDLEVELBASE + 1,
           white := false, header := true }] := by
  refine ⟨by decide, by decide, by decide⟩

/-- C7 counterexample: in the Julia scan of
`#= outer #= inner =# still-comment =#` the final `#` (position 36) is
styled as a line comment, contradicting the claim that the trailing
`still-comment =#` is styled as default/operator text, not comment. -/
theorem claim_C7_counterexample :
    (scanFrom docJuliaCmt LEX_JULIA [] 0 SCE_MAT_DEFAULT 0).styles.getD 36 0 = SCE_MAT_COMMENT
    ∧ SCE_MAT_COMMENT ≠ SCE_MAT_DEFAULT ∧ SCE_MAT_COMMENT ≠ SCE_MAT_OPERATOR := by
  decide

/-- C7 (amended): Julia block comments do not nest — in any Julia state a
`#=` inside a block comment (anything that is not the `=#` close) leaves
the scan state and depth untouched — so in
`#= outer #= inner =# still-comment =#` the first `=#` ends the comment
(positions 0-19 are block comment), and the trailing text is styled as
identifier/operator/default text except the final `#`, which begins a new
line comment. -/
theorem claim_C7 :
    (∀ (c : Ctx) (s : MatState), c.lexType = LEX_JULIA →
      isBlockCommentEnd c.lexType c.doc (ch c s) (chNext c s) s.visibleChars s.pos = false →
      stCOMMENTBLOCK c s = s)
    ∧ (scanFrom docJuliaCmt LEX_JULIA [] 0 SCE_MAT_DEFAULT 0).styles
      = List.replicate 20 SCE_MAT_COMMENTBLOCK ++ [SCE_MAT_DEFAULT]
        ++ List.replicate 5 SCE_MAT_IDENTIFIER ++ [SCE_MAT_OPERATOR]
        ++ List.replicate 7 SCE_MAT_IDENTIFIER
        ++ [SCE_MAT_DEFAULT, SCE_MAT_OPERATOR, SCE_MAT_COMMENT] := by
  refine ⟨?_, by decide⟩
  intro c s h1 h2
  rw [h1] at h2
  simp only [LEX_JULIA] at h2
  simp [stCOMMENTBLOCK, h1, h2, isNestedCommentStart, isMatlabOctave,
    LEX_JULIA, LEX_MATLAB, LEX_OCTAVE]

/-- C7 witness: the no-op rule evaluated at the inner `#=` of the concrete
Julia document (position 10, depth and state unchanged). -/
theorem claim_C7_witness :
    stCOMMENTBLOCK (mkCtx docJuliaCmt LEX_JULIA [] 0)
      { pos := 10, state := SCE_MAT_COMMENTBLOCK, styles := List.replicate 2 SCE_MAT_COMMENTBLOCK,
        commentLevel := 0, visibleChars := 8, isTransposeOperator := false,
        hasTest := false, lineCurrent := 0, lineStates := [] }
    = { pos := 10, state := SCE_MAT_COMMENTBLOCK, styles := List.replicate 2 SCE_MAT_COMMENTBLOCK,
        commentLevel := 0, visibleChars := 8, isTransposeOperator := false,
        hasTest := false, lineCurrent := 0, lineStates := [] } :=
  claim_C7.1 _ _ (by decide) (by decide)

/-- C8: the scanner accepts `1.2.3` as a single number token — all five
positions are styled number although the token contains two decimal
points — because `IsMatNumber` only rejects a dot whose predecessor is a
dot (`isMatNumber '.' '2'` holds), contradicting the documented number
shape (at most one decimal point). -/
theorem claim_C8 :
    (scanFrom docTwoDots LEX_MATLAB [] 0 SCE_MAT_DEFAULT 0).styles
      = List.replicate 5 SCE_MAT_NUMBER
    ∧ docTwoDots.count '.' = 2
    ∧ isMatNumber '.' '2' = true := by
  decide

/-- C1 counterexample: full Octave scan of `%!test NL %!foo NL`, then a
re-scan of the suffix from the line-1 boundary (position 7) with the
persisted state of line 0 (which is 0) and fresh scan-local context, as the
claim prescribes: the full scan styles `foo` as identifier (the sticky
`hasTest` flag is armed by line 0), the re-scan styles it as plain comment,
so the overlap styles differ. -/
theorem claim_C1_counterexample :
    lineStateAt (scanFrom docOctaveTest LEX_OCTAVE [] 0 SCE_MAT_DEFAULT 0) 0 = some 0
    ∧ (scanFrom docOctaveTest LEX_OCTAVE [] 0 SCE_MAT_DEFAULT 0).styles.getD 6 0
        = SCE_MAT_DEFAULT
    ∧ atLineStartPos docOctaveTest 7 = true
    ∧ (scanFrom docOctaveTest LEX_OCTAVE [] 0 SCE_MAT_DEFAULT 0).styles.getD 9 0
        = SCE_MAT_IDENTIFIER
    ∧ (scanFrom docOctaveTest LEX_OCTAVE [] 7 SCE_MAT_DEFAULT 0).styles.getD 2 0
        = SCE_MAT_COMMENT
    ∧ SCE_MAT_IDENTIFIER ≠ SCE_MAT_COMMENT := by
  decide

end LexMatlab

namespace LexMatlab

/-! Projection lemmas for the scanner primitives, powering the invariant
proofs below. -/

@[simp] theorem fwd_styles (c : Ctx) (s : MatState) : (fwd c s).styles = s.styles := by
  simp only [fwd]; split <;> rfl

@[simp] theorem fwd_hasTest (c : Ctx) (s : MatState) : (fwd c s).hasTest = s.hasTest := by
  simp only [fwd]; split <;> rfl

@[simp] theorem fwd_visibleChars (c : Ctx) (s : MatState) :
    (fwd c s).visibleChars = s.visibleChars := by
  simp only [fwd]; split <;> rfl

@[simp] theorem fwd_isTranspose (c : Ctx) (s : MatState) :
    (fwd c s).isTransposeOperator = s.isTransposeOperator := by
  simp only [fwd]; split <;> rfl

@[simp] theorem fwd_lineCurrent (c : Ctx) (s : MatState) :
    (fwd c s).lineCurrent = s.lineCurrent := by
  simp only [fwd]; split <;> rfl

@[simp] theorem fwd_lineStates (c : Ctx) (s : MatState) :
    (fwd c s).lineStates = s.lineStates := by
  simp only [fwd]; split <;> rfl

theorem fwd_pos_le (c : Ctx) (s : MatState) : s.pos ≤ (fwd c s).pos := by
  simp only [fwd]; split
  · exact Nat.le_succ _
  · exact Nat.le_refl _

theorem fwd_pos_le_len (c : Ctx) (s : MatState) (h : s.pos ≤ c.doc.length) :
    (fwd c s).pos ≤ c.doc.length := by
  simp only [fwd]; split
  · rename_i hlt; exact hlt
  · exact h

@[simp] theorem setState_pos (c : Ctx) (ns : Nat) (s : MatState) :
    (setState c ns s).pos = s.pos := rfl

@[simp] theorem setState_state (c : Ctx) (ns : Nat) (s : MatState) :
    (setState c ns s).state = ns := rfl

@[simp] theorem setState_hasTest (c : Ctx) (ns : Nat) (s : MatState) :
    (setState c ns s).hasTest = s.hasTest := rfl

@[simp] theorem setState_visibleChars (c : Ctx) (ns : Nat) (s : MatState) :
    (setState c ns s).visibleChars = s.visibleChars := rfl

@[simp] theorem setState_isTranspose (c : Ctx) (ns : Nat) (s : MatState) :
    (setState c ns s).isTransposeOperator = s.isTransposeOperator := rfl

@[simp] theorem setState_lineCurrent (c : Ctx) (ns : Nat) (s : MatState) :
    (setState c ns s).lineCurrent = s.lineCurrent := rfl

@[simp] theorem setState_lineStates (c : Ctx) (ns : Nat) (s : MatState) :
    (setState c ns s).lineStates = s.lineStates := rfl

theorem setState_styles_length (c : Ctx) (ns : Nat) (s : MatState) :
    (setState c ns s).styles.length
      = s.styles.length + (s.pos - (c.scanStart + s.styles.length)) := by
  simp [setState, colourUpTo, startSeg]

@[simp] theorem changeState_pos (ns : Nat) (s : MatState) :
    (changeState ns s).pos = s.pos := rfl

@[simp] theorem changeState_styles (ns : Nat) (s : MatState) :
    (changeState ns s).styles = s.styles := rfl

@[simp] theorem changeState_state (ns : Nat) (s : MatState) :
    (changeState ns s).state = ns := rfl

@[simp] theorem changeState_hasTest (ns : Nat) (s : MatState) :
    (changeState ns s).hasTest = s.hasTest := rfl

@[simp] theorem changeState_lineStates (ns : Nat) (s : MatState) :
    (changeState ns s).lineStates = s.lineStates := rfl

@[simp] theorem forwardSetState_pos (c : Ctx) (ns : Nat) (s : MatState) :
    (forwardSetState c ns s).pos = (fwd c s).pos := rfl

@[simp] theorem forwardSetState_state (c : Ctx) (ns : Nat) (s : MatState) :
    (forwardSetState c ns s).state = ns := rfl

@[simp] theorem forwardSetState_hasTest (c : Ctx) (ns : Nat) (s : MatState) :
    (forwardSetState c ns s).hasTest = s.hasTest := by
  simp [forwardSetState]

@[simp] theorem forwardSetState_lineStates (c : Ctx) (ns : Nat) (s : MatState) :
    (forwardSetState c ns s).lineStates = s.lineStates := by
  simp [forwardSetState]

theorem skipSpaceTabGo_hasTest (c : Ctx) (fuel : Nat) (s : MatState) :
    (skipSpaceTabGo c fuel s).hasTest = s.hasTest := by
  induction fuel generalizing s with
  | zero => rfl
  | succ n ih => simp only [skipSpaceTabGo]; split <;> simp [ih]

theorem skipSpaceTabGo_styles (c : Ctx) (fuel : Nat) (s : MatState) :
    (skipSpaceTabGo c fuel s).styles = s.styles := by
  induction fuel generalizing s with
  | zero => rfl
  | succ n ih => simp only [skipSpaceTabGo]; split <;> simp [ih]

theorem skipSpaceTabGo_state (c : Ctx) (fuel : Nat) (s : MatState) :
    (skipSpaceTabGo c fuel s).state = s.state := by
  induction fuel generalizing s with
  | zero => rfl
  | succ n ih => simp only [skipSpaceTabGo]; split <;> simp [ih]

theorem skipSpaceTabGo_lineStates (c : Ctx) (fuel : Nat) (s : MatState) :
    (skipSpaceTabGo c fuel s).lineStates = s.lineStates := by
  induction fuel generalizing s with
  | zero => rfl
  | succ n ih => simp only [skipSpaceTabGo]; split <;> simp [ih]

theorem skipSpaceTabGo_pos_le (c : Ctx) (fuel : Nat) (s : MatState) :
    s.pos ≤ (skipSpaceTabGo c fuel s).pos := by
  induction fuel generalizing s with
  | zero => exact Nat.le_refl _
  | succ n ih =>
    simp only [skipSpaceTabGo]; split
    · have := ih { s with pos := s.pos + 1 }
      simp at this
      omega
    · exact Nat.le_refl _

theorem skipSpaceTabGo_pos_le_len (c : Ctx) (fuel : Nat) (s : MatState)
    (h : s.pos ≤ c.doc.length) : (skipSpaceTabGo c fuel s).pos ≤ c.doc.length := by
  induction fuel generalizing s with
  | zero => exact h
  | succ n ih =>
    simp only [skipSpaceTabGo]; split
    · rename_i hcond
      exact ih { s with pos := s.pos + 1 } (by simp; omega)
    · exact h

theorem skipRegexFlagsGo_hasTest (c : Ctx) (fuel : Nat) (s : MatState) :
    (skipRegexFlagsGo c fuel s).hasTest = s.hasTest := by
  induction fuel generalizing s with
  | zero => rfl
  | succ n ih => simp only [skipRegexFlagsGo]; split <;> simp [ih]

theorem skipRegexFlagsGo_styles (c : Ctx) (fuel : Nat) (s : MatState) :
    (skipRegexFlagsGo c fuel s).styles = s.styles := by
  induction fuel generalizing s with
  | zero => rfl
  | succ n ih => simp only [skipRegexFlagsGo]; split <;> simp [ih]

theorem skipRegexFlagsGo_state (c : Ctx) (fuel : Nat) (s : MatState) :
    (skipRegexFlagsGo c fuel s).state = s.state := by
  induction fuel generalizing s with
  | zero => rfl
  | succ n ih => simp only [skipRegexFlagsGo]; split <;> simp [ih]

theorem skipRegexFlagsGo_lineStates (c : Ctx) (fuel : Nat) (s : MatState) :
    (skipRegexFlagsGo c fuel s).lineStates = s.lineStates := by
  induction fuel generalizing s with
  | zero => rfl
  | succ n ih => simp only [skipRegexFlagsGo]; split <;> simp [ih]

theorem skipRegexFlagsGo_pos_le (c : Ctx) (fuel : Nat) (s : MatState) :
    s.pos ≤ (skipRegexFlagsGo c fuel s).pos := by
  induction fuel generalizing s with
  | zero => exact Nat.le_refl _
  | succ n ih =>
    simp only [skipRegexFlagsGo]; split
    · have := ih { s with pos := s.pos + 1 }
      simp at this
      omega
    · exact Nat.le_refl _

theorem skipRegexFlagsGo_pos_le_len (c : Ctx) (fuel : Nat) (s : MatState)
    (h : s.pos ≤ c.doc.length) : (skipRegexFlagsGo c fuel s).pos ≤ c.doc.length := by
  induction fuel generalizing s with
  | zero => exact h
  | succ n ih =>
    simp only [skipRegexFlagsGo]; split
    · rename_i hcond
      exact ih { s with pos := s.pos + 1 } (by simp; omega)
    · exact h

end LexMatlab

namespace LexMatlab

/-! The sticky `hasTest` flag: no handler ever clears it (it is assigned
only at line 294 of the source, and only to `true`). -/

theorem stOPERATOR_hasTest (c : Ctx) (s : MatState) :
    (stOPERATOR c s).hasTest = s.hasTest := by
  simp only [stOPERATOR]
  split_ifs <;> simp only [setState_hasTest]

theorem stNUMBER_hasTest (c : Ctx) (s : MatState) :
    (stNUMBER c s).hasTest = s.hasTest := by
  simp only [stNUMBER]
  split_ifs <;> simp only [setState_hasTest, fwd_hasTest]

theorem stHEXNUM_hasTest (c : Ctx) (s : MatState) :
    (stHEXNUM c s).hasTest = s.hasTest := by
  simp only [stHEXNUM]
  split_ifs <;> simp only [setState_hasTest]

theorem stIDENTclassify_hasTest (c : Ctx) (s : MatState) :
    (stIDENTclassify c s).hasTest = s.hasTest := by
  simp only [stIDENTclassify]
  split_ifs <;> simp only [changeState_hasTest]

theorem stIDENTfinish_hasTest (c : Ctx) (s : MatState) :
    (stIDENTfinish c s).hasTest = s.hasTest := by
  simp only [stIDENTfinish]
  split_ifs <;> simp only [setState_hasTest, fwd_hasTest]

theorem stIDENT_hasTest (c : Ctx) (s : MatState) :
    (stIDENT c s).hasTest = s.hasTest := by
  simp only [stIDENT]
  split_ifs <;> simp only [stIDENTfinish_hasTest, stIDENTclassify_hasTest]

theorem stCALLBACK_hasTest (c : Ctx) (s : MatState) :
    (stCALLBACK c s).hasTest = s.hasTest := by
  simp only [stCALLBACK]
  split_ifs <;> simp only [setState_hasTest, fwd_hasTest]

theorem stCOMMAND_hasTest (c : Ctx) (s : MatState) :
    (stCOMMAND c s).hasTest = s.hasTest := by
  simp only [stCOMMAND]
  split_ifs <;> simp only [setState_hasTest]

theorem stSTRING_hasTest (c : Ctx) (s : MatState) :
    (stSTRING c s).hasTest = s.hasTest := by
  simp only [stSTRING]
  split_ifs <;> simp only [forwardSetState_hasTest, fwd_hasTest]

theorem stDQ_hasTest (c : Ctx) (s : MatState) :
    (stDQ c s).hasTest = s.hasTest := by
  simp only [stDQ, skipRegexFlags]
  split_ifs <;>
    simp only [forwardSetState_hasTest, fwd_hasTest, skipRegexFlagsGo_hasTest]

theorem stTRIPLE_hasTest (c : Ctx) (s : MatState) :
    (stTRIPLE c s).hasTest = s.hasTest := by
  simp only [stTRIPLE, fwd2]
  split_ifs <;> simp only [forwardSetState_hasTest, fwd_hasTest]

theorem stBACKTICK_hasTest (c : Ctx) (s : MatState) :
    (stBACKTICK c s).hasTest = s.hasTest := by
  simp only [stBACKTICK]
  split_ifs <;> simp only [forwardSetState_hasTest, fwd_hasTest]

theorem stCOMMENTBLOCK_hasTest (c : Ctx) (s : MatState) :
    (stCOMMENTBLOCK c s).hasTest = s.hasTest := by
  simp only [stCOMMENTBLOCK]
  split_ifs <;> simp only [forwardSetState_hasTest, fwd_hasTest]

theorem stCOMMENT_hasTest (c : Ctx) (s : MatState) :
    (stCOMMENT c s).hasTest = s.hasTest := by
  simp only [stCOMMENT]
  split_ifs <;> simp only [setState_hasTest]

theorem matchState_hasTest (c : Ctx) (s : MatState) :
    (matchState c s).hasTest = s.hasTest := by
  simp only [matchState, apply_ite MatState.hasTest, stOPERATOR_hasTest,
    stNUMBER_hasTest, stHEXNUM_hasTest, stIDENT_hasTest, stCALLBACK_hasTest,
    stCOMMAND_hasTest, stSTRING_hasTest, stDQ_hasTest, stTRIPLE_hasTest,
    stBACKTICK_hasTest, stCOMMENTBLOCK_hasTest, stCOMMENT_hasTest, ite_self]

theorem dfLineComment_hasTest_mono (c : Ctx) (s : MatState) (h : s.hasTest = true) :
    (dfLineComment c s).hasTest = true := by
  simp only [dfLineComment, fwd2]
  split_ifs <;> simp only [setState_hasTest, fwd_hasTest, h]

theorem dfRawString_hasTest (c : Ctx) (s : MatState) :
    (dfRawString c s).hasTest = s.hasTest := by
  simp only [dfRawString, fwd2, fwd3, apply_ite MatState.hasTest,
    changeState_hasTest, setState_hasTest, fwd_hasTest, ite_self]

theorem dfOperator_hasTest (c : Ctx) (s : MatState) :
    (dfOperator c s).hasTest = s.hasTest := by
  simp only [dfOperator, fwd2, skipSpaceTab, apply_ite MatState.hasTest,
    setState_hasTest, skipSpaceTabGo_hasTest, fwd_hasTest, ite_self]

theorem defaultDispatch_hasTest_mono (c : Ctx) (s : MatState) (h : s.hasTest = true) :
    (defaultDispatch c s).hasTest = true := by
  have hdl : (dfLineComment c (setState c SCE_MAT_COMMENT s)).hasTest = true :=
    dfLineComment_hasTest_mono _ _ (by simp only [setState_hasTest]; exact h)
  simp only [defaultDispatch, fwd2, apply_ite MatState.hasTest,
    setState_hasTest, changeState_hasTest, fwd_hasTest, dfRawString_hasTest,
    dfOperator_hasTest, hdl, h, ite_self]

theorem bodyStep_hasTest_mono (c : Ctx) (s : MatState) (h : s.hasTest = true) :
    (bodyStep c s).hasTest = true := by
  simp only [bodyStep]
  have h1 : (matchState c s).hasTest = true := by rw [matchState_hasTest]; exact h
  split_ifs <;>
    first
      | exact defaultDispatch_hasTest_mono _ _ h1
      | exact h1

end LexMatlab

namespace LexMatlab

/-- C9: the Octave test-annotation flag is sticky — no scan step ever
clears `hasTest` — and once it is set, a `%!` at the start of a line whose
following character is a word character is tokenized from `%!` onwards as
an identifier (the dispatch jumps past `%!` and enters the identifier
state).  Concretely, in `%!test NL %!foo NL` the word `foo` of the second
annotation line is styled identifier, while in `%!foo NL` alone (flag never
set) the whole line stays plain comment. -/
theorem claim_C9 :
    (∀ (c : Ctx) (s : MatState), s.hasTest = true → (bodyStep c s).hasTest = true)
    ∧ (∀ (c : Ctx) (s : MatState),
        c.lexType = LEX_OCTAVE → s.hasTest = true →
        atLineStartPos c.doc s.pos = true → ch c s = '%' → chNext c s = '!' →
        iswordstart (charAt c.doc (s.pos + 2)) = true → s.pos + 2 < c.doc.length →
        (defaultDispatch c s).state = SCE_MAT_IDENTIFIER
          ∧ (defaultDispatch c s).pos = s.pos + 2)
    ∧ (scanFrom docOctaveTest LEX_OCTAVE [] 0 SCE_MAT_DEFAULT 0).styles
        = [SCE_MAT_COMMENT, SCE_MAT_COMMENT, SCE_MAT_IDENTIFIER, SCE_MAT_IDENTIFIER,
           SCE_MAT_IDENTIFIER, SCE_MAT_IDENTIFIER, SCE_MAT_DEFAULT, SCE_MAT_COMMENT,
           SCE_MAT_COMMENT, SCE_MAT_IDENTIFIER, SCE_MAT_IDENTIFIER, SCE_MAT_IDENTIFIER,
           SCE_MAT_DEFAULT]
    ∧ (scanFrom docOctaveNoTest LEX_OCTAVE [] 0 SCE_MAT_DEFAULT 0).styles
        = List.replicate 6 SCE_MAT_COMMENT := by
  refine ⟨fun c s h => bodyStep_hasTest_mono c s h, ?_, by decide, by decide⟩
  intro c s hoct hht hals hch hchn hws hlen
  have hch' : charAt c.doc s.pos = '%' := hch
  have hchn' : charAt c.doc (s.pos + 1) = '!' := hchn
  have hp0 : s.pos < c.doc.length := by omega
  have hp1 : s.pos + 1 < c.doc.length := by omega
  simp only [defaultDispatch, ch, chNext, hch', hchn', hoct, matchAt,
    isBlockCommentStart, isNestedCommentStart, isLineCommentStart, isMatlabOctave,
    LEX_OCTAVE, LEX_JULIA, LEX_MATLAB]
  norm_num
  simp only [dfLineComment, setState_pos, setState_hasTest, ch, chNext, hch', hchn',
    hht, hals, LEX_OCTAVE, hoct]
  norm_num
  simp [hht, fwd2, fwd, hp0, hp1, hws, setState_pos]

/-- C9 witness: the sticky flag and the identifier tokenization at the
second line of the concrete document `%!test NL %!foo NL`. -/
theorem claim_C9_witness :
    ((bodyStep (mkCtx docOctaveTest LEX_OCTAVE [] 0)
      { pos := 7, state := SCE_MAT_DEFAULT, styles := List.replicate 7 SCE_MAT_COMMENT,
        commentLevel := 0, visibleChars := 0, isTransposeOperator := false,
        hasTest := true, lineCurrent := 1, lineStates := [(0, 0)] }).hasTest = true)
    ∧ ((defaultDispatch (mkCtx docOctaveTest LEX_OCTAVE [] 0)
      { pos := 7, state := SCE_MAT_DEFAULT, styles := List.replicate 7 SCE_MAT_COMMENT,
        commentLevel := 0, visibleChars := 0, isTransposeOperator := false,
        hasTest := true, lineCurrent := 1, lineStates := [(0, 0)] }).state
        = SCE_MAT_IDENTIFIER) :=
  ⟨claim_C9.1 _ _ (by decide),
   (claim_C9.2.1 _ _ (by decide) (by decide) (by decide) (by decide) (by decide)
     (by decide) (by decide)).1⟩

end LexMatlab

namespace LexMatlab

theorem foldLineCommit_levelNext (f : FoldCtx) (i : Nat) (fs : FoldState) :
    (foldLineCommit f i fs).levelNext = fs.levelNext := by
  simp only [foldLineCommit]; split <;> rfl

/-- C5: in the fold pass, whenever the keyword branch is reached (the
position starts a keyword-styled token, the bracket counter is zero and the
preceding character is neither `.` nor `:`) and the text at the position
matches the literal `end`, the running fold level `levelNext` is
decremented by exactly one, for every dialect, with no keyword-balance
validation of any kind. -/
theorem claim_C5 (f : FoldCtx) (i : Nat) (fs : FoldState)
    (h1 : fStyle f i = SCE_MAT_KEYWORD) (h2 : fStylePrev f i ≠ SCE_MAT_KEYWORD)
    (h3 : fs.numBrace = 0) (h4 : fchPrev f i ≠ '.') (h5 : fchPrev f i ≠ ':')
    (h6 : matchAt f.doc i "end".toList = true) :
    (foldStep f i fs).levelNext = fs.levelNext - 1 := by
  have h6' := h6
  simp only [matchAt, String.toList] at h6'
  norm_num at h6'
  obtain ⟨he, hn, hd⟩ := h6'
  have hwe : iswordstart 'e' = true := by decide
  have hwn : iswordstart 'n' = true := by decide
  have hwd : iswordstart 'd' = true := by decide
  have hcb : foldCommentBlocks f i fs = fs := by
    simp [foldCommentBlocks, isStreamCommentStyle, isSripleStringStyle, h1,
      SCE_MAT_KEYWORD, SCE_MAT_COMMENTBLOCK, SCE_MAT_TRIPLE_STRING2, fAtEOL, fch,
      fchNext, he]
  have g0 : lexGetRangeGo f.doc i iswordstart 32 32 0
      = 'e' :: lexGetRangeGo f.doc i iswordstart 32 31 1 := by
    rw [lexGetRangeGo]
    simp only [Nat.add_zero, he, hwe]
    norm_num
  have g1 : lexGetRangeGo f.doc i iswordstart 32 31 1
      = 'n' :: lexGetRangeGo f.doc i iswordstart 32 30 2 := by
    rw [lexGetRangeGo]
    simp only [hn, hwn]
    norm_num
  have g2 : lexGetRangeGo f.doc i iswordstart 32 30 2
      = 'd' :: lexGetRangeGo f.doc i iswordstart 32 29 3 := by
    rw [lexGetRangeGo]
    have hi2 : i + 2 = i + 1 + 1 := by omega
    simp only [hi2, hd, hwd]
    norm_num
  have hword : lexGetRangeWord f.doc i iswordstart 32
      = 'e' :: 'n' :: 'd' :: lexGetRangeGo f.doc i iswordstart 32 29 3 := by
    rw [lexGetRangeWord, g0, g1, g2]
  have hkw : foldKeywordBlock f i fs = { fs with levelNext := fs.levelNext - 1 } := by
    simp only [foldKeywordBlock, hword]
    split_ifs with hg h7 h8
    · simp [String.toList] at h7
    · simp [String.toList] at h8
    · rfl
    · have hg2 : fStyle f i = SCE_MAT_KEYWORD → ¬fStylePrev f i = SCE_MAT_KEYWORD →
          fs.numBrace = 0 → ¬fchPrev f i = '.' → fchPrev f i = ':' := by simpa using hg
      exact absurd (hg2 h1 h2 h3 h4) h5
  have hbr : ∀ t : FoldState, t.numBrace = fs.numBrace → foldBraceBlock f i t = t := by
    intro t _
    simp [foldBraceBlock, h1, SCE_MAT_KEYWORD, SCE_MAT_OPERATOR]
  rw [foldStep, hcb, hkw]
  simp only [hbr]
  simp [foldLineCommit_levelNext, apply_ite FoldState.levelNext]

/-- C5 witness: the decrement evaluated on the single-line MATLAB document
`end NL` (keyword-styled by the scanner), level 0x400 → 0x3FF. -/
theorem claim_C5_witness :
    (foldStep
      { doc := "end\n".toList,
        styles := (scanFrom "end\n".toList LEX_MATLAB kwBlocks 0 SCE_MAT_DEFAULT 0).styles,
        lexType := LEX_MATLAB, foldComment := false, foldCompact := true,
        startPos := 0, endPos := 4, initStyle := SCE_MAT_DEFAULT } 0
      { numBrace := 0, visibleChars := 0, lineCurrent := 0,
        levelCurrent := SC_FOLDLEVELBASE, levelNext := SC_FOLDLEVELBASE,
        levels := [] }).levelNext = SC_FOLDLEVELBASE - 1 :=
  claim_C5 _ _ _ (by decide) (by decide) (by decide) (by decide) (by decide) (by decide)

/-- Length bound for the word-variant `LexGetRange` copy loop. -/
theorem lexGetRangeGo_length (doc : Doc) (startPos : Nat) (pred : Char → Bool)
    (len : Nat) : ∀ (fuel i : Nat),
    (lexGetRangeGo doc startPos pred len fuel i).length ≤ len - 1 - i := by
  intro fuel
  induction fuel with
  | zero => intro i; simp [lexGetRangeGo]
  | succ n ih =>
    intro i
    rw [lexGetRangeGo]
    split
    · rename_i hcond
      have := ih (i + 1)
      simp only [List.length_cons]
      omega
    · simp

/-- C10: the word-character variant of `LexGetRange` with buffer capacity
`len ≥ 1` writes only inside the buffer: it copies at most `len - 1` word
characters (the returned count), writes them at indices `0 .. count - 1`,
and puts the NUL terminator at index `count`, which is also below `len`;
the last write is always the terminator. -/
theorem claim_C10 (doc : Doc) (startPos : Nat) (pred : Char → Bool) (len : Nat)
    (h : 1 ≤ len) :
    (lexGetRangeWord doc startPos pred len).length ≤ len - 1
    ∧ (∀ q ∈ lexGetRangeWrites doc startPos pred len, q.1 < len)
    ∧ (lexGetRangeWrites doc startPos pred len).getLast?
        = some ((lexGetRangeWord doc startPos pred len).length, Char.ofNat 0) := by
  have hlen : (lexGetRangeWord doc startPos pred len).length ≤ len - 1 := by
    have := lexGetRangeGo_length doc startPos pred len len 0
    simpa [lexGetRangeWord] using this
  refine ⟨hlen, ?_, ?_⟩
  · intro q hq
    simp only [lexGetRangeWrites, List.mem_append] at hq
    rcases hq with hq | hq
    · have hz := List.of_mem_zip hq
      have hq1 : q.1 < (lexGetRangeWord doc startPos pred len).length :=
        List.mem_range.mp hz.1
      omega
    · simp only [List.mem_singleton] at hq
      rw [hq]
      show (lexGetRangeWord doc startPos pred len).length < len
      omega
  · simp [lexGetRangeWrites]

/-- C10 witness: extracting the word `if` from position 5 of
`x = [if, for]` into a 32-byte buffer: 2 characters copied, terminator at
index 2, all writes below 32. -/
theorem claim_C10_witness :
    (lexGetRangeWord docBracketKw 5 iswordstart 32).length ≤ 31
    ∧ (∀ q ∈ lexGetRangeWrites docBracketKw 5 iswordstart 32, q.1 < 32)
    ∧ (lexGetRangeWrites docBracketKw 5 iswordstart 32).getLast?
        = some ((lexGetRangeWord docBracketKw 5 iswordstart 32).length, Char.ofNat 0) :=
  claim_C10 docBracketKw 5 iswordstart 32 (by decide)

end LexMatlab

namespace LexMatlab

/-! Bounds preserved by every scanner primitive: the styling front
`startSeg = scanStart + styles.length` never passes the cursor, the cursor
never passes the end of the scanned range, and the cursor never moves
backwards (`lo` is an arbitrary lower bound carried through). -/

theorem fwd_keeps (c : Ctx) (lo : Nat) (s : MatState)
    (h : (c.scanStart + s.styles.length ≤ s.pos ∧ s.pos ≤ c.doc.length) ∧ lo ≤ s.pos) :
    (c.scanStart + (fwd c s).styles.length ≤ (fwd c s).pos
      ∧ (fwd c s).pos ≤ c.doc.length) ∧ lo ≤ (fwd c s).pos := by
  obtain ⟨⟨ha, hb⟩, hc⟩ := h
  refine ⟨⟨?_, fwd_pos_le_len c s hb⟩, Nat.le_trans hc (fwd_pos_le c s)⟩
  rw [fwd_styles]
  exact Nat.le_trans ha (fwd_pos_le c s)

theorem setState_keeps (c : Ctx) (ns : Nat) (lo : Nat) (s : MatState)
    (h : (c.scanStart + s.styles.length ≤ s.pos ∧ s.pos ≤ c.doc.length) ∧ lo ≤ s.pos) :
    (c.scanStart + (setState c ns s).styles.length ≤ (setState c ns s).pos
      ∧ (setState c ns s).pos ≤ c.doc.length) ∧ lo ≤ (setState c ns s).pos := by
  obtain ⟨⟨ha, hb⟩, hc⟩ := h
  refine ⟨⟨?_, hb⟩, hc⟩
  rw [setState_styles_length, setState_pos]
  omega

theorem changeState_keeps (c : Ctx) (ns : Nat) (lo : Nat) (s : MatState)
    (h : (c.scanStart + s.styles.length ≤ s.pos ∧ s.pos ≤ c.doc.length) ∧ lo ≤ s.pos) :
    (c.scanStart + (changeState ns s).styles.length ≤ (changeState ns s).pos
      ∧ (changeState ns s).pos ≤ c.doc.length) ∧ lo ≤ (changeState ns s).pos := h

theorem skipSpaceTabGo_keeps (c : Ctx) (fuel : Nat) (lo : Nat) (s : MatState)
    (h : (c.scanStart + s.styles.length ≤ s.pos ∧ s.pos ≤ c.doc.length) ∧ lo ≤ s.pos) :
    (c.scanStart + (skipSpaceTabGo c fuel s).styles.length ≤ (skipSpaceTabGo c fuel s).pos
      ∧ (skipSpaceTabGo c fuel s).pos ≤ c.doc.length)
      ∧ lo ≤ (skipSpaceTabGo c fuel s).pos := by
  obtain ⟨⟨ha, hb⟩, hc⟩ := h
  refine ⟨⟨?_, skipSpaceTabGo_pos_le_len c fuel s hb⟩,
    Nat.le_trans hc (skipSpaceTabGo_pos_le c fuel s)⟩
  rw [skipSpaceTabGo_styles]
  exact Nat.le_trans ha (skipSpaceTabGo_pos_le c fuel s)

theorem skipRegexFlagsGo_keeps (c : Ctx) (fuel : Nat) (lo : Nat) (s : MatState)
    (h : (c.scanStart + s.styles.length ≤ s.pos ∧ s.pos ≤ c.doc.length) ∧ lo ≤ s.pos) :
    (c.scanStart + (skipRegexFlagsGo c fuel s).styles.length
        ≤ (skipRegexFlagsGo c fuel s).pos
      ∧ (skipRegexFlagsGo c fuel s).pos ≤ c.doc.length)
      ∧ lo ≤ (skipRegexFlagsGo c fuel s).pos := by
  obtain ⟨⟨ha, hb⟩, hc⟩ := h
  refine ⟨⟨?_, skipRegexFlagsGo_pos_le_len c fuel s hb⟩,
    Nat.le_trans hc (skipRegexFlagsGo_pos_le c fuel s)⟩
  rw [skipRegexFlagsGo_styles]
  exact Nat.le_trans ha (skipRegexFlagsGo_pos_le c fuel s)

theorem stOPERATOR_keeps (c : Ctx) (lo : Nat) (s : MatState)
    (h : (c.scanStart + s.styles.length ≤ s.pos ∧ s.pos ≤ c.doc.length) ∧ lo ≤ s.pos) :
    (c.scanStart + (stOPERATOR c s).styles.length ≤ (stOPERATOR c s).pos
      ∧ (stOPERATOR c s).pos ≤ c.doc.length) ∧ lo ≤ (stOPERATOR c s).pos := by
  simp only [stOPERATOR]
  split_ifs <;> exact setState_keeps c SCE_MAT_DEFAULT lo s h

theorem stNUMBER_keeps (c : Ctx) (lo : Nat) (s : MatState)
    (h : (c.scanStart + s.styles.length ≤ s.pos ∧ s.pos ≤ c.doc.length) ∧ lo ≤ s.pos) :
    (c.scanStart + (stNUMBER c s).styles.length ≤ (stNUMBER c s).pos
      ∧ (stNUMBER c s).pos ≤ c.doc.length) ∧ lo ≤ (stNUMBER c s).pos := by
  simp only [stNUMBER]
  split_ifs <;>
    first
      | exact h
      | exact setState_keeps c SCE_MAT_DEFAULT lo _ (fwd_keeps c lo s h)
      | exact setState_keeps c SCE_MAT_DEFAULT lo s h

theorem stHEXNUM_keeps (c : Ctx) (lo : Nat) (s : MatState)
    (h : (c.scanStart + s.styles.length ≤ s.pos ∧ s.pos ≤ c.doc.length) ∧ lo ≤ s.pos) :
    (c.scanStart + (stHEXNUM c s).styles.length ≤ (stHEXNUM c s).pos
      ∧ (stHEXNUM c s).pos ≤ c.doc.length) ∧ lo ≤ (stHEXNUM c s).pos := by
  simp only [stHEXNUM]
  split_ifs <;>
    first
      | exact h
      | exact setState_keeps c SCE_MAT_DEFAULT lo s h

theorem stIDENTclassify_keeps (c : Ctx) (lo : Nat) (s : MatState)
    (h : (c.scanStart + s.styles.length ≤ s.pos ∧ s.pos ≤ c.doc.length) ∧ lo ≤ s.pos) :
    (c.scanStart + (stIDENTclassify c s).styles.length ≤ (stIDENTclassify c s).pos
      ∧ (stIDENTclassify c s).pos ≤ c.doc.length) ∧ lo ≤ (stIDENTclassify c s).pos := by
  simp only [stIDENTclassify]
  split_ifs <;> exact h

theorem stIDENTfinish_keeps (c : Ctx) (lo : Nat) (s : MatState)
    (h : (c.scanStart + s.styles.length ≤ s.pos ∧ s.pos ≤ c.doc.length) ∧ lo ≤ s.pos) :
    (c.scanStart + (stIDENTfinish c s).styles.length ≤ (stIDENTfinish c s).pos
      ∧ (stIDENTfinish c s).pos ≤ c.doc.length) ∧ lo ≤ (stIDENTfinish c s).pos := by
  simp only [stIDENTfinish]
  split_ifs <;>
    first
      | exact setState_keeps _ _ _ _ (fwd_keeps _ _ _ (setState_keeps _ _ _ _ h))
      | exact setState_keeps _ _ _ _ h

theorem stIDENT_keeps (c : Ctx) (lo : Nat) (s : MatState)
    (h : (c.scanStart + s.styles.length ≤ s.pos ∧ s.pos ≤ c.doc.length) ∧ lo ≤ s.pos) :
    (c.scanStart + (stIDENT c s).styles.length ≤ (stIDENT c s).pos
      ∧ (stIDENT c s).pos ≤ c.doc.length) ∧ lo ≤ (stIDENT c s).pos := by
  simp only [stIDENT]
  split_ifs <;>
    first
      | exact h
      | exact stIDENTfinish_keeps _ _ _ (stIDENTclassify_keeps _ _ _ h)

theorem stCALLBACK_keeps (c : Ctx) (lo : Nat) (s : MatState)
    (h : (c.scanStart + s.styles.length ≤ s.pos ∧ s.pos ≤ c.doc.length) ∧ lo ≤ s.pos) :
    (c.scanStart + (stCALLBACK c s).styles.length ≤ (stCALLBACK c s).pos
      ∧ (stCALLBACK c s).pos ≤ c.doc.length) ∧ lo ≤ (stCALLBACK c s).pos := by
  simp only [stCALLBACK]
  split_ifs <;>
    first
      | exact h
      | exact setState_keeps _ _ _ _ (fwd_keeps _ _ _ (setState_keeps _ _ _ _ h))
      | exact setState_keeps _ _ _ _ h

theorem stCOMMAND_keeps (c : Ctx) (lo : Nat) (s : MatState)
    (h : (c.scanStart + s.styles.length ≤ s.pos ∧ s.pos ≤ c.doc.length) ∧ lo ≤ s.pos) :
    (c.scanStart + (stCOMMAND c s).styles.length ≤ (stCOMMAND c s).pos
      ∧ (stCOMMAND c s).pos ≤ c.doc.length) ∧ lo ≤ (stCOMMAND c s).pos := by
  simp only [stCOMMAND]
  split_ifs <;>
    first
      | exact h
      | exact setState_keeps c SCE_MAT_DEFAULT lo s h

theorem stSTRING_keeps (c : Ctx) (lo : Nat) (s : MatState)
    (h : (c.scanStart + s.styles.length ≤ s.pos ∧ s.pos ≤ c.doc.length) ∧ lo ≤ s.pos) :
    (c.scanStart + (stSTRING c s).styles.length ≤ (stSTRING c s).pos
      ∧ (stSTRING c s).pos ≤ c.doc.length) ∧ lo ≤ (stSTRING c s).pos := by
  simp only [stSTRING, forwardSetState]
  split_ifs <;>
    first
      | exact fwd_keeps _ _ _ h
      | exact setState_keeps _ _ _ _ (fwd_keeps _ _ _ h)
      | exact h

theorem stDQ_keeps (c : Ctx) (lo : Nat) (s : MatState)
    (h : (c.scanStart + s.styles.length ≤ s.pos ∧ s.pos ≤ c.doc.length) ∧ lo ≤ s.pos) :
    (c.scanStart + (stDQ c s).styles.length ≤ (stDQ c s).pos
      ∧ (stDQ c s).pos ≤ c.doc.length) ∧ lo ≤ (stDQ c s).pos := by
  simp only [stDQ, forwardSetState, skipRegexFlags]
  split_ifs <;>
    first
      | exact fwd_keeps _ _ _ h
      | exact setState_keeps _ _ _ _ (fwd_keeps _ _ _ (skipRegexFlagsGo_keeps _ _ _ _ h))
      | exact setState_keeps _ _ _ _ (fwd_keeps _ _ _ h)
      | exact h

theorem stTRIPLE_keeps (c : Ctx) (lo : Nat) (s : MatState)
    (h : (c.scanStart + s.styles.length ≤ s.pos ∧ s.pos ≤ c.doc.length) ∧ lo ≤ s.pos) :
    (c.scanStart + (stTRIPLE c s).styles.length ≤ (stTRIPLE c s).pos
      ∧ (stTRIPLE c s).pos ≤ c.doc.length) ∧ lo ≤ (stTRIPLE c s).pos := by
  simp only [stTRIPLE, forwardSetState, fwd2]
  split_ifs <;>
    first
      | exact h
      | exact setState_keeps _ _ _ _ (fwd_keeps _ _ _ (fwd_keeps _ _ _ (fwd_keeps _ _ _ h)))

theorem stBACKTICK_keeps (c : Ctx) (lo : Nat) (s : MatState)
    (h : (c.scanStart + s.styles.length ≤ s.pos ∧ s.pos ≤ c.doc.length) ∧ lo ≤ s.pos) :
    (c.scanStart + (stBACKTICK c s).styles.length ≤ (stBACKTICK c s).pos
      ∧ (stBACKTICK c s).pos ≤ c.doc.length) ∧ lo ≤ (stBACKTICK c s).pos := by
  simp only [stBACKTICK, forwardSetState]
  split_ifs <;>
    first
      | exact h
      | exact setState_keeps _ _ _ _ (fwd_keeps _ _ _ h)

theorem stCOMMENTBLOCK_keeps (c : Ctx) (lo : Nat) (s : MatState)
    (h : (c.scanStart + s.styles.length ≤ s.pos ∧ s.pos ≤ c.doc.length) ∧ lo ≤ s.pos) :
    (c.scanStart + (stCOMMENTBLOCK c s).styles.length ≤ (stCOMMENTBLOCK c s).pos
      ∧ (stCOMMENTBLOCK c s).pos ≤ c.doc.length) ∧ lo ≤ (stCOMMENTBLOCK c s).pos := by
  simp only [stCOMMENTBLOCK, forwardSetState]
  split_ifs <;>
    first
      | exact setState_keeps _ _ _ _ (fwd_keeps _ _ _ (fwd_keeps _ _ _ h))
      | exact fwd_keeps _ _ _ h
      | exact h

theorem stCOMMENT_keeps (c : Ctx) (lo : Nat) (s : MatState)
    (h : (c.scanStart + s.styles.length ≤ s.pos ∧ s.pos ≤ c.doc.length) ∧ lo ≤ s.pos) :
    (c.scanStart + (stCOMMENT c s).styles.length ≤ (stCOMMENT c s).pos
      ∧ (stCOMMENT c s).pos ≤ c.doc.length) ∧ lo ≤ (stCOMMENT c s).pos := by
  simp only [stCOMMENT]
  split_ifs <;>
    first
      | exact h
      | exact setState_keeps c SCE_MAT_DEFAULT lo _ ⟨⟨h.1.1, h.1.2⟩, h.2⟩

theorem ite_bounds (c : Ctx) (lo : Nat) (cond : Prop) [Decidable cond]
    (a b : MatState) (ha : ScanBounds c lo a) (hb : ScanBounds c lo b) :
    ScanBounds c lo (if cond then a else b) := by
  split
  · exact ha
  · exact hb

theorem matchState_keeps (c : Ctx) (lo : Nat) (s : MatState)
    (h : (c.scanStart + s.styles.length ≤ s.pos ∧ s.pos ≤ c.doc.length) ∧ lo ≤ s.pos) :
    (c.scanStart + (matchState c s).styles.length ≤ (matchState c s).pos
      ∧ (matchState c s).pos ≤ c.doc.length) ∧ lo ≤ (matchState c s).pos := by
  show ScanBounds c lo (matchState c s)
  rw [matchState]
  exact ite_bounds c lo _ _ _ (stOPERATOR_keeps _ _ _ h)
    (ite_bounds c lo _ _ _ (stNUMBER_keeps _ _ _ h)
      (ite_bounds c lo _ _ _ (stHEXNUM_keeps _ _ _ h)
        (ite_bounds c lo _ _ _ (stIDENT_keeps _ _ _ h)
          (ite_bounds c lo _ _ _ (stCALLBACK_keeps _ _ _ h)
            (ite_bounds c lo _ _ _ (stCOMMAND_keeps _ _ _ h)
              (ite_bounds c lo _ _ _ (stSTRING_keeps _ _ _ h)
                (ite_bounds c lo _ _ _ (stDQ_keeps _ _ _ h)
                  (ite_bounds c lo _ _ _ (stTRIPLE_keeps _ _ _ h)
                    (ite_bounds c lo _ _ _ (stBACKTICK_keeps _ _ _ h)
                      (ite_bounds c lo _ _ _ (stCOMMENTBLOCK_keeps _ _ _ h)
                        (ite_bounds c lo _ _ _ (stCOMMENT_keeps _ _ _ h) h)))))))))))

theorem dfLineComment_keeps (c : Ctx) (lo : Nat) (s : MatState)
    (h : (c.scanStart + s.styles.length ≤ s.pos ∧ s.pos ≤ c.doc.length) ∧ lo ≤ s.pos) :
    (c.scanStart + (dfLineComment c s).styles.length ≤ (dfLineComment c s).pos
      ∧ (dfLineComment c s).pos ≤ c.doc.length) ∧ lo ≤ (dfLineComment c s).pos := by
  simp only [dfLineComment, fwd2]
  split_ifs <;>
    first
      | exact setState_keeps _ _ _ _ (fwd_keeps _ _ _ (fwd_keeps _ _ _ h))
      | exact fwd_keeps _ _ _ (fwd_keeps _ _ _ h)
      | exact h

theorem dfRawString_keeps (c : Ctx) (lo : Nat) (s : MatState)
    (h : (c.scanStart + s.styles.length ≤ s.pos ∧ s.pos ≤ c.doc.length) ∧ lo ≤ s.pos) :
    (c.scanStart + (dfRawString c s).styles.length ≤ (dfRawString c s).pos
      ∧ (dfRawString c s).pos ≤ c.doc.length) ∧ lo ≤ (dfRawString c s).pos := by
  simp only [dfRawString, fwd2, fwd3]
  split_ifs <;>
    first
      | exact fwd_keeps _ _ _ (fwd_keeps _ _ _
          (fwd_keeps _ _ _ (fwd_keeps _ _ _ (fwd_keeps _ _ _ (setState_keeps _ _ _ _ h)))))
      | exact fwd_keeps _ _ _ (fwd_keeps _ _ _ (fwd_keeps _ _ _ (setState_keeps _ _ _ _ h)))

theorem dfOperator_keeps (c : Ctx) (lo : Nat) (s : MatState)
    (h : (c.scanStart + s.styles.length ≤ s.pos ∧ s.pos ≤ c.doc.length) ∧ lo ≤ s.pos) :
    (c.scanStart + (dfOperator c s).styles.length ≤ (dfOperator c s).pos
      ∧ (dfOperator c s).pos ≤ c.doc.length) ∧ lo ≤ (dfOperator c s).pos := by
  simp only [dfOperator, fwd2, skipSpaceTab]
  split_ifs <;>
    first
      | exact setState_keeps c SCE_MAT_OPERATOR lo s h
      | exact setState_keeps _ _ _ _ (skipSpaceTabGo_keeps _ _ _ _
          (setState_keeps c SCE_MAT_DEFAULT lo _ (fwd_keeps _ _ _ (fwd_keeps _ _ _
            (setState_keeps c SCE_MAT_OPERATOR lo s h)))))

theorem defaultDispatch_keeps (c : Ctx) (lo : Nat) (s : MatState)
    (h : (c.scanStart + s.styles.length ≤ s.pos ∧ s.pos ≤ c.doc.length) ∧ lo ≤ s.pos) :
    (c.scanStart + (defaultDispatch c s).styles.length ≤ (defaultDispatch c s).pos
      ∧ (defaultDispatch c s).pos ≤ c.doc.length) ∧ lo ≤ (defaultDispatch c s).pos := by
  show ScanBounds c lo (defaultDispatch c s)
  rw [defaultDispatch]
  refine ite_bounds c lo _ _ _ (fwd_keeps _ _ _ (setState_keeps _ _ _ _ h)) ?_
  refine ite_bounds c lo _ _ _ (fwd_keeps _ _ _ (setState_keeps _ _ _ _ h)) ?_
  refine ite_bounds c lo _ _ _ (dfRawString_keeps _ _ _ h) ?_
  refine ite_bounds c lo _ _ _
    (fwd_keeps _ _ _ (setState_keeps _ _ _ _ (ite_bounds c lo _ _ _ h h))) ?_
  refine ite_bounds c lo _ _ _ (dfLineComment_keeps _ _ _ (setState_keeps _ _ _ _ h)) ?_
  refine ite_bounds c lo _ _ _ (setState_keeps _ _ _ _ h) ?_
  refine ite_bounds c lo _ _ _ (fwd_keeps _ _ _ (fwd_keeps _ _ _ (setState_keeps _ _ _ _ h))) ?_
  refine ite_bounds c lo _ _ _
    (ite_bounds c lo _ _ _ (setState_keeps _ _ _ _ h) (setState_keeps _ _ _ _ h)) ?_
  refine ite_bounds c lo _ _ _ (setState_keeps _ _ _ _ h) ?_
  refine ite_bounds c lo _ _ _ (setState_keeps _ _ _ _ h) ?_
  refine ite_bounds c lo _ _ _ (fwd_keeps _ _ _ (setState_keeps _ _ _ _ h)) ?_
  refine ite_bounds c lo _ _ _ (setState_keeps _ _ _ _ h) ?_
  refine ite_bounds c lo _ _ _ (fwd_keeps _ _ _ (setState_keeps _ _ _ _ h)) ?_
  refine ite_bounds c lo _ _ _ (fwd_keeps _ _ _ (setState_keeps _ _ _ _ h)) ?_
  refine ite_bounds c lo _ _ _ (setState_keeps _ _ _ _ h) ?_
  exact ite_bounds c lo _ _ _ (dfOperator_keeps _ _ _ h) h

theorem bodyStep_keeps (c : Ctx) (lo : Nat) (s : MatState)
    (h : (c.scanStart + s.styles.length ≤ s.pos ∧ s.pos ≤ c.doc.length) ∧ lo ≤ s.pos) :
    (c.scanStart + (bodyStep c s).styles.length ≤ (bodyStep c s).pos
      ∧ (bodyStep c s).pos ≤ c.doc.length) ∧ lo ≤ (bodyStep c s).pos := by
  show ScanBounds c lo (bodyStep c s)
  rw [bodyStep]
  have h1 := matchState_keeps c lo s h
  have h2 : ScanBounds c lo (if (matchState c s).state = SCE_MAT_DEFAULT
      then defaultDispatch c (matchState c s) else matchState c s) :=
    ite_bounds c lo _ _ _ (defaultDispatch_keeps _ _ _ h1) h1
  exact ite_bounds c lo _ _ _ (ite_bounds c lo _ _ _ h2 h2) (ite_bounds c lo _ _ _ h2 h2)

end LexMatlab

namespace LexMatlab

/-- Running the scan loop to the end of the document: the cursor finishes
exactly at `doc.length` and the styling front still has not passed it. -/
theorem scanLoopT_end (c : Ctx) : ∀ (fuel : Nat) (s : MatState),
    (c.scanStart + s.styles.length ≤ s.pos ∧ s.pos ≤ c.doc.length) →
    c.doc.length - s.pos ≤ fuel →
    (scanLoopT c fuel c.doc.length s).pos = c.doc.length
    ∧ c.scanStart + (scanLoopT c fuel c.doc.length s).styles.length
        ≤ (scanLoopT c fuel c.doc.length s).pos := by
  intro fuel
  induction fuel with
  | zero =>
    intro s hs hf
    exact ⟨by simp [scanLoopT]; omega, by simp [scanLoopT]; omega⟩
  | succ n ih =>
    intro s hs hf
    rw [scanLoopT]
    split
    · rename_i hlt
      have hb := bodyStep_keeps c s.pos s ⟨hs, Nat.le_refl _⟩
      have hfb := fwd_keeps c s.pos (bodyStep c s) hb
      apply ih
      · exact hfb.1
      · have h1 : s.pos ≤ (bodyStep c s).pos := hb.2
        have h2 : (bodyStep c s).pos ≤ c.doc.length := hb.1.2
        by_cases hc : (bodyStep c s).pos < c.doc.length
        · have he : (fwd c (bodyStep c s)).pos = (bodyStep c s).pos + 1 := by
            simp only [fwd, if_pos hc]
          omega
        · have he : (fwd c (bodyStep c s)).pos = (bodyStep c s).pos := by
            simp only [fwd, if_neg hc]
          omega
    · rename_i hge
      exact ⟨by omega, hs.1⟩

/-- C2: total coverage — for every buffer, dialect, keyword configuration
and start position inside the buffer, the finished scan assigns exactly one
style per position of the scanned range `[scanStart, doc.length)`: the
styles list (one entry per position, in order) has exactly the length of
the range, so no position is left unstyled and none is styled twice. -/
theorem claim_C2 (c : Ctx) (initStyle : Nat) (initLevel : Int)
    (h : c.scanStart ≤ c.doc.length) :
    (colouriseMatlabDoc c initStyle initLevel).styles.length
      = c.doc.length - c.scanStart
    ∧ ∀ p, c.scanStart ≤ p → p < c.doc.length →
        p - c.scanStart < (colouriseMatlabDoc c initStyle initLevel).styles.length := by
  have hinit : (c.scanStart + (initState c initStyle initLevel).styles.length
        ≤ (initState c initStyle initLevel).pos
      ∧ (initState c initStyle initLevel).pos ≤ c.doc.length) := by
    simp [initState]
    exact h
  have hend := scanLoopT_end c (c.doc.length + 1) (initState c initStyle initLevel)
    hinit (by simp [initState]; omega)
  have hlen : (colouriseMatlabDoc c initStyle initLevel).styles.length
      = c.doc.length - c.scanStart := by
    simp only [colouriseMatlabDoc, colourUpTo, startSeg, List.length_append,
      List.length_replicate]
    omega
  exact ⟨hlen, fun p hp1 hp2 => by omega⟩

/-- C2 witness: the scan of the 14-byte nested-comment document from
position 0 yields exactly 14 style entries. -/
theorem claim_C2_witness :
    (mkCtx docNested LEX_MATLAB [] 0).scanStart ≤ (mkCtx docNested LEX_MATLAB [] 0).doc.length
    ∧ (colouriseMatlabDoc (mkCtx docNested LEX_MATLAB [] 0) SCE_MAT_DEFAULT 0).styles.length
      = (mkCtx docNested LEX_MATLAB [] 0).doc.length
        - (mkCtx docNested LEX_MATLAB [] 0).scanStart :=
  ⟨by decide, (claim_C2 (mkCtx docNested LEX_MATLAB [] 0) SCE_MAT_DEFAULT 0 (by decide)).1⟩

end LexMatlab

namespace LexMatlab

/-! Re-scan projection: the suffix context and the state projection `phi`
leave every scan observable except the dropped style/line-state prefixes
unchanged. -/

theorem rescan_doc (c : Ctx) (L : Nat) : (rescanCtx c L).doc = c.doc := rfl

theorem rescan_lexType (c : Ctx) (L : Nat) : (rescanCtx c L).lexType = c.lexType := rfl

theorem rescan_keywords (c : Ctx) (L : Nat) : (rescanCtx c L).keywords = c.keywords := rfl

theorem rescan_attributes (c : Ctx) (L : Nat) :
    (rescanCtx c L).attributes = c.attributes := rfl

theorem rescan_commands (c : Ctx) (L : Nat) : (rescanCtx c L).commands = c.commands := rfl

theorem rescan_function1 (c : Ctx) (L : Nat) :
    (rescanCtx c L).function1 = c.function1 := rfl

theorem rescan_function2 (c : Ctx) (L : Nat) :
    (rescanCtx c L).function2 = c.function2 := rfl

theorem rescan_scanStart (c : Ctx) (L : Nat) : (rescanCtx c L).scanStart = L := rfl

theorem phi_pos (L K : Nat) (s : MatState) : (phi L K s).pos = s.pos := rfl

theorem phi_state (L K : Nat) (s : MatState) : (phi L K s).state = s.state := rfl

theorem phi_commentLevel (L K : Nat) (s : MatState) :
    (phi L K s).commentLevel = s.commentLevel := rfl

theorem phi_visibleChars (L K : Nat) (s : MatState) :
    (phi L K s).visibleChars = s.visibleChars := rfl

theorem phi_isTranspose (L K : Nat) (s : MatState) :
    (phi L K s).isTransposeOperator = s.isTransposeOperator := rfl

theorem phi_hasTest (L K : Nat) (s : MatState) : (phi L K s).hasTest = s.hasTest := rfl

theorem phi_lineCurrent (L K : Nat) (s : MatState) :
    (phi L K s).lineCurrent = s.lineCurrent := rfl

theorem phi_styles (L K : Nat) (s : MatState) : (phi L K s).styles = s.styles.drop L := rfl

theorem phi_lineStates (L K : Nat) (s : MatState) :
    (phi L K s).lineStates = s.lineStates.drop K := rfl

theorem ch_phi (c : Ctx) (L K : Nat) (s : MatState) :
    ch (rescanCtx c L) (phi L K s) = ch c s := rfl

theorem chNext_phi (c : Ctx) (L K : Nat) (s : MatState) :
    chNext (rescanCtx c L) (phi L K s) = chNext c s := rfl

theorem chPrev_phi (c : Ctx) (L K : Nat) (s : MatState) :
    chPrev (rescanCtx c L) (phi L K s) = chPrev c s := rfl

theorem phi_upd_isT (L K : Nat) (s : MatState) (b : Bool) :
    ({ phi L K s with isTransposeOperator := b })
      = phi L K { s with isTransposeOperator := b } := rfl

theorem phi_upd_cl (L K : Nat) (s : MatState) (v : Int) :
    ({ phi L K s with commentLevel := v }) = phi L K { s with commentLevel := v } := rfl

theorem phi_upd_vc (L K : Nat) (s : MatState) (v : Nat) :
    ({ phi L K s with visibleChars := v }) = phi L K { s with visibleChars := v } := rfl

theorem phi_upd_ht (L K : Nat) (s : MatState) (b : Bool) :
    ({ phi L K s with hasTest := b }) = phi L K { s with hasTest := b } := rfl

theorem phi_upd_pos (L K : Nat) (s : MatState) (p : Nat) :
    ({ phi L K s with pos := p }) = phi L K { s with pos := p } := rfl

/-! List facts used to push the style-prefix drop through `ColourTo`. -/

theorem drop_all_append (l l₂ : List Nat) (L : Nat) (h : l.length ≤ L) :
    (l ++ l₂).drop L = l₂.drop (L - l.length) := by
  induction l generalizing L with
  | nil => simp
  | cons a t ih =>
    cases L with
    | zero => simp at h
    | succ n => simpa using ih n (by simpa using h)

theorem drop_append_replicate (L e sty : Nat) (l : List Nat) :
    l.drop L ++ List.replicate (e - (L + (l.drop L).length)) sty
      = (l ++ List.replicate (e - l.length) sty).drop L := by
  by_cases h : L ≤ l.length
  · rw [List.drop_append_of_le_length h, List.length_drop]
    have h2 : e - (L + (l.length - L)) = e - l.length := by omega
    rw [h2]
  · push_neg at h
    rw [List.drop_eq_nil_of_le (by omega), drop_all_append _ _ _ (by omega),
      List.drop_replicate, List.nil_append]
    have h2 : e - (L + ([] : List Nat).length) = e - l.length - (L - l.length) := by
      simp only [List.length_nil]
      omega
    rw [h2]

theorem colourUpTo_phi (c : Ctx) (hc : c.scanStart = 0) (L K e sty : Nat) (s : MatState) :
    colourUpTo (rescanCtx c L) e sty (phi L K s) = phi L K (colourUpTo c e sty s) := by
  simp only [colourUpTo, phi, startSeg, rescan_scanStart, hc, Nat.zero_add]
  rw [drop_append_replicate]

theorem setState_phi (c : Ctx) (hc : c.scanStart = 0) (L K ns : Nat) (s : MatState) :
    setState (rescanCtx c L) ns (phi L K s) = phi L K (setState c ns s) := by
  simp only [setState, phi_pos, phi_state, colourUpTo_phi c hc]
  rfl

theorem changeState_phi (L K ns : Nat) (s : MatState) :
    changeState ns (phi L K s) = phi L K (changeState ns s) := rfl

theorem fwd_phi (c : Ctx) (L K : Nat) (s : MatState) :
    fwd (rescanCtx c L) (phi L K s) = phi L K (fwd c s) := by
  simp only [fwd, rescan_doc, phi_pos]
  by_cases h : s.pos < c.doc.length
  · rw [if_pos h, if_pos h]; rfl
  · rw [if_neg h, if_neg h]

theorem fwd2_phi (c : Ctx) (L K : Nat) (s : MatState) :
    fwd2 (rescanCtx c L) (phi L K s) = phi L K (fwd2 c s) := by
  simp only [fwd2, fwd_phi]

theorem fwd3_phi (c : Ctx) (L K : Nat) (s : MatState) :
    fwd3 (rescanCtx c L) (phi L K s) = phi L K (fwd3 c s) := by
  simp only [fwd3, fwd2_phi, fwd_phi]

theorem forwardSetState_phi (c : Ctx) (hc : c.scanStart = 0) (L K ns : Nat) (s : MatState) :
    forwardSetState (rescanCtx c L) ns (phi L K s)
      = phi L K (forwardSetState c ns s) := by
  simp only [forwardSetState, fwd_phi, setState_phi c hc]

theorem skipSpaceTabGo_phi (c : Ctx) (L K fuel : Nat) : ∀ (s : MatState),
    skipSpaceTabGo (rescanCtx c L) fuel (phi L K s)
      = phi L K (skipSpaceTabGo c fuel s) := by
  induction fuel with
  | zero => intro s; rfl
  | succ n ih =>
    intro s
    simp only [skipSpaceTabGo, rescan_doc, phi_pos]
    by_cases h : s.pos < c.doc.length ∧ isSpaceOrTab (charAt c.doc s.pos)
    · rw [if_pos h, if_pos h]
      exact ih { s with pos := s.pos + 1 }
    · rw [if_neg h, if_neg h]

theorem skipSpaceTab_phi (c : Ctx) (L K : Nat) (s : MatState) :
    skipSpaceTab (rescanCtx c L) (phi L K s) = phi L K (skipSpaceTab c s) := by
  simp only [skipSpaceTab, rescan_doc]
  exact skipSpaceTabGo_phi c L K (c.doc.length + 1) s

theorem skipRegexFlagsGo_phi (c : Ctx) (L K fuel : Nat) : ∀ (s : MatState),
    skipRegexFlagsGo (rescanCtx c L) fuel (phi L K s)
      = phi L K (skipRegexFlagsGo c fuel s) := by
  induction fuel with
  | zero => intro s; rfl
  | succ n ih =>
    intro s
    simp only [skipRegexFlagsGo, rescan_doc, phi_pos, chNext_phi]
    by_cases h : s.pos < c.doc.length ∧
        (chNext c s = 'i' || chNext c s = 'm' || chNext c s = 's' || chNext c s = 'x')
    · rw [if_pos h, if_pos h]
      exact ih { s with pos := s.pos + 1 }
    · rw [if_neg h, if_neg h]

theorem skipRegexFlags_phi (c : Ctx) (L K : Nat) (s : MatState) :
    skipRegexFlags (rescanCtx c L) (phi L K s) = phi L K (skipRegexFlags c s) := by
  simp only [skipRegexFlags, rescan_doc]
  exact skipRegexFlagsGo_phi c L K (c.doc.length + 1) s

theorem tokenChars_phi (c : Ctx) (hc : c.scanStart = 0) (L K : Nat) (s : MatState)
    (hn : L ≤ s.styles.length) :
    tokenChars (rescanCtx c L) (phi L K s) = tokenChars c s := by
  simp only [tokenChars, startSeg, phi_pos, phi_styles, rescan_doc, rescan_scanStart,
    List.length_drop, hc, Nat.zero_add]
  rw [Nat.add_sub_cancel' hn]

end LexMatlab

namespace LexMatlab

/-! No handler of the state switch or of the default dispatch ever writes a
line state: `SetLineState` is reached only from the line-end block of the
loop body. -/

theorem stOPERATOR_lineStates (c : Ctx) (s : MatState) :
    (stOPERATOR c s).lineStates = s.lineStates := by
  simp only [stOPERATOR]
  split_ifs <;> simp only [setState_lineStates]

theorem stNUMBER_lineStates (c : Ctx) (s : MatState) :
    (stNUMBER c s).lineStates = s.lineStates := by
  simp only [stNUMBER]
  split_ifs <;> simp only [setState_lineStates, fwd_lineStates]

theorem stHEXNUM_lineStates (c : Ctx) (s : MatState) :
    (stHEXNUM c s).lineStates = s.lineStates := by
  simp only [stHEXNUM]
  split_ifs <;> simp only [setState_lineStates]

theorem stIDENTclassify_lineStates (c : Ctx) (s : MatState) :
    (stIDENTclassify c s).lineStates = s.lineStates := by
  simp only [stIDENTclassify]
  split_ifs <;> simp only [changeState_lineStates]

theorem stIDENTfinish_lineStates (c : Ctx) (s : MatState) :
    (stIDENTfinish c s).lineStates = s.lineStates := by
  simp only [stIDENTfinish]
  split_ifs <;> simp only [setState_lineStates, fwd_lineStates]

theorem stIDENT_lineStates (c : Ctx) (s : MatState) :
    (stIDENT c s).lineStates = s.lineStates := by
  simp only [stIDENT]
  split_ifs <;> simp only [stIDENTfinish_lineStates, stIDENTclassify_lineStates]

theorem stCALLBACK_lineStates (c : Ctx) (s : MatState) :
    (stCALLBACK c s).lineStates = s.lineStates := by
  simp only [stCALLBACK]
  split_ifs <;> simp only [setState_lineStates, fwd_lineStates]

theorem stCOMMAND_lineStates (c : Ctx) (s : MatState) :
    (stCOMMAND c s).lineStates = s.lineStates := by
  simp only [stCOMMAND]
  split_ifs <;> simp only [setState_lineStates]

theorem stSTRING_lineStates (c : Ctx) (s : MatState) :
    (stSTRING c s).lineStates = s.lineStates := by
  simp only [stSTRING]
  split_ifs <;> simp only [forwardSetState_lineStates, fwd_lineStates]

theorem stDQ_lineStates (c : Ctx) (s : MatState) :
    (stDQ c s).lineStates = s.lineStates := by
  simp only [stDQ, skipRegexFlags]
  split_ifs <;>
    simp only [forwardSetState_lineStates, fwd_lineStates, skipRegexFlagsGo_lineStates]

theorem stTRIPLE_lineStates (c : Ctx) (s : MatState) :
    (stTRIPLE c s).lineStates = s.lineStates := by
  simp only [stTRIPLE, fwd2]
  split_ifs <;> simp only [forwardSetState_lineStates, fwd_lineStates]

theorem stBACKTICK_lineStates (c : Ctx) (s : MatState) :
    (stBACKTICK c s).lineStates = s.lineStates := by
  simp only [stBACKTICK]
  split_ifs <;> simp only [forwardSetState_lineStates, fwd_lineStates]

theorem stCOMMENTBLOCK_lineStates (c : Ctx) (s : MatState) :
    (stCOMMENTBLOCK c s).lineStates = s.lineStates := by
  simp only [stCOMMENTBLOCK]
  split_ifs <;> simp only [forwardSetState_lineStates, fwd_lineStates]

theorem stCOMMENT_lineStates (c : Ctx) (s : MatState) :
    (stCOMMENT c s).lineStates = s.lineStates := by
  simp only [stCOMMENT]
  split_ifs <;> simp only [setState_lineStates]

theorem matchState_lineStates (c : Ctx) (s : MatState) :
    (matchState c s).lineStates = s.lineStates := by
  simp only [matchState, apply_ite MatState.lineStates, stOPERATOR_lineStates,
    stNUMBER_lineStates, stHEXNUM_lineStates, stIDENT_lineStates, stCALLBACK_lineStates,
    stCOMMAND_lineStates, stSTRING_lineStates, stDQ_lineStates, stTRIPLE_lineStates,
    stBACKTICK_lineStates, stCOMMENTBLOCK_lineStates, stCOMMENT_lineStates, ite_self]

theorem dfLineComment_lineStates (c : Ctx) (s : MatState) :
    (dfLineComment c s).lineStates = s.lineStates := by
  simp only [dfLineComment, fwd2]
  split_ifs <;> simp only [setState_lineStates, fwd_lineStates]

theorem dfRawString_lineStates (c : Ctx) (s : MatState) :
    (dfRawString c s).lineStates = s.lineStates := by
  simp only [dfRawString, fwd2, fwd3, apply_ite MatState.lineStates,
    changeState_lineStates, setState_lineStates, fwd_lineStates, ite_self]

theorem dfOperator_lineStates (c : Ctx) (s : MatState) :
    (dfOperator c s).lineStates = s.lineStates := by
  simp only [dfOperator, fwd2, skipSpaceTab, apply_ite MatState.lineStates,
    setState_lineStates, skipSpaceTabGo_lineStates, fwd_lineStates, ite_self]

theorem defaultDispatch_lineStates (c : Ctx) (s : MatState) :
    (defaultDispatch c s).lineStates = s.lineStates := by
  have hdl : (dfLineComment c (setState c SCE_MAT_COMMENT s)).lineStates = s.lineStates := by
    rw [dfLineComment_lineStates, setState_lineStates]
  simp only [defaultDispatch, fwd2, apply_ite MatState.lineStates,
    setState_lineStates, changeState_lineStates, fwd_lineStates, dfRawString_lineStates,
    dfOperator_lineStates, hdl, ite_self]

theorem bodyStep_lineStates_len (c : Ctx) (s : MatState) :
    s.lineStates.length ≤ (bodyStep c s).lineStates.length := by
  simp only [bodyStep]
  split_ifs <;>
    simp only [matchState_lineStates, defaultDispatch_lineStates, List.length_append,
      List.length_cons, List.length_nil] <;>
    omega

end LexMatlab

namespace LexMatlab

/-! The identifier/attribute states are only ever entered through
`SetState`, which first colours up to the cursor — so inside such a token
the styling front never lags behind the re-scan boundary once the cursor
has passed it. -/

theorem frontOk_of_len {L : Nat} {s : MatState} (h : L ≤ s.styles.length) :
    FrontOk L s := fun _ => h

theorem frontOk_of_state_eq {L : Nat} {s : MatState} (n : Nat) (h : s.state = n)
    (h1 : n ≠ SCE_MAT_IDENTIFIER) (h2 : n ≠ SCE_MAT_ATTRIBUTE) : FrontOk L s := by
  intro hx
  cases hx with
  | inl hi => exact absurd (h.symm.trans hi) h1
  | inr hi => exact absurd (h.symm.trans hi) h2

theorem frontOk_DEFAULT {L : Nat} {s : MatState} (h : s.state = SCE_MAT_DEFAULT) :
    FrontOk L s :=
  frontOk_of_state_eq SCE_MAT_DEFAULT h (by decide) (by decide)

theorem frontOk_congr {L : Nat} {s t : MatState} (hst : t.state = s.state)
    (hsty : t.styles = s.styles) (h : FrontOk L s) : FrontOk L t := by
  intro hx
  rw [hsty]
  refine h ?_
  cases hx with
  | inl hi => exact Or.inl (hst.symm.trans hi)
  | inr hi => exact Or.inr (hst.symm.trans hi)

theorem ite_front (cond : Prop) [Decidable cond] {L : Nat} {a b : MatState}
    (ha : FrontOk L a) (hb : FrontOk L b) : FrontOk L (if cond then a else b) := by
  by_cases h : cond
  · rwa [if_pos h]
  · rwa [if_neg h]

theorem ite_frontH (cond : Prop) [Decidable cond] {L : Nat} {a b : MatState}
    (ha : cond → FrontOk L a) (hb : ¬ cond → FrontOk L b) :
    FrontOk L (if cond then a else b) := by
  by_cases h : cond
  · rw [if_pos h]; exact ha h
  · rw [if_neg h]; exact hb h

theorem stOPERATOR_frontOk (c : Ctx) (L : Nat) (s : MatState) :
    FrontOk L (stOPERATOR c s) := by
  simp only [stOPERATOR]
  exact ite_front _
    (ite_front _ (frontOk_DEFAULT rfl)
      (ite_front _ (frontOk_DEFAULT rfl) (frontOk_DEFAULT rfl)))
    (frontOk_DEFAULT rfl)

theorem stNUMBER_frontOk (c : Ctx) (L : Nat) (s : MatState) (hP : FrontOk L s) :
    FrontOk L (stNUMBER c s) := by
  simp only [stNUMBER]
  exact ite_front _ (frontOk_DEFAULT rfl) hP

theorem stHEXNUM_frontOk (c : Ctx) (L : Nat) (s : MatState) (hP : FrontOk L s) :
    FrontOk L (stHEXNUM c s) := by
  simp only [stHEXNUM]
  exact ite_front _ (frontOk_DEFAULT rfl) hP

theorem stIDENTfinish_state (c : Ctx) (s : MatState) :
    (stIDENTfinish c s).state = SCE_MAT_DEFAULT := by
  simp only [stIDENTfinish, setState_state]

theorem stIDENT_frontOk (c : Ctx) (L : Nat) (s : MatState) (hP : FrontOk L s) :
    FrontOk L (stIDENT c s) := by
  simp only [stIDENT]
  exact ite_front _ (frontOk_DEFAULT (stIDENTfinish_state c _)) hP

theorem stCALLBACK_frontOk (c : Ctx) (L : Nat) (s : MatState) (hP : FrontOk L s) :
    FrontOk L (stCALLBACK c s) := by
  simp only [stCALLBACK]
  exact ite_front _ (frontOk_DEFAULT rfl) hP

theorem stCOMMAND_frontOk (c : Ctx) (L : Nat) (s : MatState) (hP : FrontOk L s) :
    FrontOk L (stCOMMAND c s) := by
  simp only [stCOMMAND]
  exact ite_front _ (frontOk_DEFAULT rfl) hP

theorem stSTRING_frontOk (c : Ctx) (L : Nat) (s : MatState) (hP : FrontOk L s) :
    FrontOk L (stSTRING c s) := by
  simp only [stSTRING]
  exact ite_front _
    (ite_front _ (frontOk_congr (fwd_state c s) (fwd_styles c s) hP) hP)
    (ite_front _
      (ite_front _ (frontOk_congr (fwd_state c s) (fwd_styles c s) hP)
        (frontOk_DEFAULT (forwardSetState_state c _ s)))
      hP)

theorem stDQ_frontOk (c : Ctx) (L : Nat) (s : MatState) (hP : FrontOk L s) :
    FrontOk L (stDQ c s) := by
  simp only [stDQ]
  exact ite_front _
    (ite_front _ (frontOk_congr (fwd_state c s) (fwd_styles c s) hP) hP)
    (ite_front _ (frontOk_DEFAULT (forwardSetState_state c _ _)) hP)

theorem stTRIPLE_frontOk (c : Ctx) (L : Nat) (s : MatState) (hP : FrontOk L s) :
    FrontOk L (stTRIPLE c s) := by
  simp only [stTRIPLE]
  exact ite_front _ (frontOk_DEFAULT (forwardSetState_state c _ _)) hP

theorem stBACKTICK_frontOk (c : Ctx) (L : Nat) (s : MatState) (hP : FrontOk L s) :
    FrontOk L (stBACKTICK c s) := by
  simp only [stBACKTICK]
  exact ite_front _ (frontOk_DEFAULT (forwardSetState_state c _ _)) hP

theorem stCOMMENTBLOCK_frontOk (c : Ctx) (L : Nat) (s : MatState) (hP : FrontOk L s) :
    FrontOk L (stCOMMENTBLOCK c s) := by
  simp only [stCOMMENTBLOCK]
  refine ite_front _ ?_ (ite_front _ (frontOk_congr (fwd_state c _) (fwd_styles c _) hP) hP)
  refine ite_front _ (frontOk_DEFAULT (forwardSetState_state c _ _)) ?_
  exact ite_front _ (frontOk_congr rfl rfl hP) hP

theorem stCOMMENT_frontOk (c : Ctx) (L : Nat) (s : MatState) (hP : FrontOk L s) :
    FrontOk L (stCOMMENT c s) := by
  simp only [stCOMMENT]
  exact ite_front _ (frontOk_DEFAULT rfl) hP

theorem matchState_frontOk (c : Ctx) (L : Nat) (s : MatState) (hP : FrontOk L s) :
    FrontOk L (matchState c s) := by
  simp only [matchState]
  exact ite_front _ (stOPERATOR_frontOk c L s)
    (ite_front _ (stNUMBER_frontOk c L s hP)
      (ite_front _ (stHEXNUM_frontOk c L s hP)
        (ite_front _ (stIDENT_frontOk c L s hP)
          (ite_front _ (stCALLBACK_frontOk c L s hP)
            (ite_front _ (stCOMMAND_frontOk c L s hP)
              (ite_front _ (stSTRING_frontOk c L s hP)
                (ite_front _ (stDQ_frontOk c L s hP)
                  (ite_front _ (stTRIPLE_frontOk c L s hP)
                    (ite_front _ (stBACKTICK_frontOk c L s hP)
                      (ite_front _ (stCOMMENTBLOCK_frontOk c L s hP)
                        (ite_front _ (stCOMMENT_frontOk c L s hP) hP)))))))))))

theorem dfRawString_front (c : Ctx) (hc : c.scanStart = 0) (L : Nat) (s : MatState)
    (hb : ScanBounds c L s) : L ≤ (dfRawString c s).styles.length := by
  obtain ⟨⟨h1, h2⟩, h3⟩ := hb
  simp only [dfRawString, fwd3, fwd2]
  split_ifs <;>
    (try simp only [fwd_styles, changeState_styles, setState_styles_length]) <;>
    omega

theorem dfOperator_front (c : Ctx) (hc : c.scanStart = 0) (L : Nat) (s : MatState)
    (hb : ScanBounds c L s) : L ≤ (dfOperator c s).styles.length := by
  obtain ⟨⟨h1, h2⟩, h3⟩ := hb
  simp only [dfOperator, fwd2, skipSpaceTab]
  split_ifs <;>
    (try simp only [fwd_styles, skipSpaceTabGo_styles, setState_styles_length]) <;>
    omega

theorem dfLineComment_front (c : Ctx) (L : Nat) (s : MatState)
    (h : L ≤ s.styles.length) : L ≤ (dfLineComment c s).styles.length := by
  simp only [dfLineComment, fwd2]
  split_ifs <;>
    first
      | exact h
      | (simp only [fwd_styles, setState_styles_length]; omega)

theorem defaultDispatch_frontOk (c : Ctx) (hc : c.scanStart = 0) (L : Nat) (s : MatState)
    (hb : ScanBounds c L s) (hst : s.state = SCE_MAT_DEFAULT) :
    FrontOk L (defaultDispatch c s) := by
  obtain ⟨⟨h1, h2⟩, h3⟩ := hb
  simp only [defaultDispatch, fwd2]
  refine ite_front _ (frontOk_of_len (by simp only [fwd_styles, setState_styles_length]; omega)) ?_
  refine ite_front _ (frontOk_of_len (by simp only [fwd_styles, setState_styles_length]; omega)) ?_
  refine ite_front _ (frontOk_of_len (dfRawString_front c hc L s ⟨⟨h1, h2⟩, h3⟩)) ?_
  refine ite_front _ (frontOk_of_len (by
    simp only [fwd_styles, setState_styles_length, apply_ite MatState.styles,
      apply_ite MatState.pos, ite_self]
    omega)) ?_
  refine ite_front _ (frontOk_of_len (dfLineComment_front c L _ (by
    simp only [setState_styles_length]; omega))) ?_
  refine ite_front _ (frontOk_of_len (by simp only [setState_styles_length]; omega)) ?_
  refine ite_front _ (frontOk_of_len (by simp only [fwd_styles, setState_styles_length]; omega)) ?_
  refine ite_front _ (ite_front _
    (frontOk_of_len (by simp only [setState_styles_length]; omega))
    (frontOk_of_len (by simp only [setState_styles_length]; omega))) ?_
  refine ite_front _ (frontOk_of_len (by simp only [setState_styles_length]; omega)) ?_
  refine ite_front _ (frontOk_of_len (by simp only [setState_styles_length]; omega)) ?_
  refine ite_front _ (frontOk_of_len (by simp only [fwd_styles, setState_styles_length]; omega)) ?_
  refine ite_front _ (frontOk_of_len (by simp only [setState_styles_length]; omega)) ?_
  refine ite_front _ (frontOk_of_len (by simp only [fwd_styles, setState_styles_length]; omega)) ?_
  refine ite_front _ (frontOk_of_len (by simp only [fwd_styles, setState_styles_length]; omega)) ?_
  refine ite_front _ (frontOk_of_len (by simp only [setState_styles_length]; omega)) ?_
  refine ite_front _ (frontOk_of_len (dfOperator_front c hc L s ⟨⟨h1, h2⟩, h3⟩)) ?_
  exact frontOk_DEFAULT hst

theorem frontOk_vc (L : Nat) (u : MatState) (v : Nat) (h : FrontOk L u) :
    FrontOk L { u with visibleChars := v } := frontOk_congr rfl rfl h

theorem frontOk_lineEnd (L : Nat) (u : MatState) (ls : List (Nat × Int)) (lc vc : Nat)
    (h : FrontOk L u) :
    FrontOk L { u with lineStates := ls, lineCurrent := lc, visibleChars := vc } :=
  frontOk_congr rfl rfl h

theorem bodyStep_frontOk (c : Ctx) (hc : c.scanStart = 0) (L : Nat) (s : MatState)
    (hb : ScanBounds c L s) (hP : FrontOk L s) : FrontOk L (bodyStep c s) := by
  have h1 := matchState_frontOk c L s hP
  have hbm : ScanBounds c L (matchState c s) := matchState_keeps c L s hb
  have h2 : FrontOk L (if (matchState c s).state = SCE_MAT_DEFAULT
      then defaultDispatch c (matchState c s) else matchState c s) :=
    ite_frontH _ (fun hd => defaultDispatch_frontOk c hc L _ hbm hd) (fun _ => h1)
  simp only [bodyStep]
  refine ite_front _ (frontOk_vc L _ _ ?_) ?_ <;>
    exact ite_front _ (frontOk_lineEnd L _ _ _ _ h2) h2

end LexMatlab

namespace LexMatlab

/-! Each handler of the scanner commutes with the projection `phi` onto the
suffix re-scan: running it in the re-scan context on the projected state is
the projection of running it in the full-scan context. -/

theorem stOPERATOR_phi (c : Ctx) (hc : c.scanStart = 0) (L K : Nat) (s : MatState) :
    stOPERATOR (rescanCtx c L) (phi L K s) = phi L K (stOPERATOR c s) := by
  simp only [stOPERATOR, setState_phi c hc, ch_phi, chPrev_phi]
  split_ifs <;> (try simp only [phi_upd_isT]) <;> try rfl

theorem stNUMBER_phi (c : Ctx) (hc : c.scanStart = 0) (L K : Nat) (s : MatState) :
    stNUMBER (rescanCtx c L) (phi L K s) = phi L K (stNUMBER c s) := by
  simp only [stNUMBER, ch_phi, chPrev_phi, rescan_lexType, fwd_phi]
  split_ifs <;> (try simp only [setState_phi c hc, phi_upd_isT]) <;> try rfl

theorem stHEXNUM_phi (c : Ctx) (hc : c.scanStart = 0) (L K : Nat) (s : MatState) :
    stHEXNUM (rescanCtx c L) (phi L K s) = phi L K (stHEXNUM c s) := by
  simp only [stHEXNUM, ch_phi, setState_phi c hc]
  split_ifs <;> (try simp only [phi_upd_isT]) <;> try rfl

theorem stIDENTclassify_phi (c : Ctx) (hc : c.scanStart = 0) (L K : Nat) (s : MatState)
    (hn : L ≤ s.styles.length) :
    stIDENTclassify (rescanCtx c L) (phi L K s) = phi L K (stIDENTclassify c s) := by
  simp only [stIDENTclassify, tokenChars_phi c hc L K s hn, rescan_keywords,
    rescan_attributes, rescan_commands, rescan_function1, rescan_function2,
    rescan_lexType, rescan_doc, phi_pos, phi_state, changeState_phi]
  split_ifs <;> (try simp only [phi_upd_isT]) <;> try rfl

theorem stIDENTfinish_phi (c : Ctx) (hc : c.scanStart = 0) (L K : Nat) (s : MatState) :
    stIDENTfinish (rescanCtx c L) (phi L K s) = phi L K (stIDENTfinish c s) := by
  simp only [stIDENTfinish, ch_phi]
  split_ifs <;> simp only [setState_phi c hc, fwd_phi]

theorem stIDENT_phi (c : Ctx) (hc : c.scanStart = 0) (L K : Nat) (s : MatState)
    (hn : L ≤ s.styles.length) :
    stIDENT (rescanCtx c L) (phi L K s) = phi L K (stIDENT c s) := by
  simp only [stIDENT, ch_phi, phi_upd_isT]
  split_ifs
  · rfl
  · rw [stIDENTclassify_phi c hc L K { s with isTransposeOperator := true } hn,
      stIDENTfinish_phi c hc L K _]

theorem stCALLBACK_phi (c : Ctx) (hc : c.scanStart = 0) (L K : Nat) (s : MatState) :
    stCALLBACK (rescanCtx c L) (phi L K s) = phi L K (stCALLBACK c s) := by
  simp only [stCALLBACK, ch_phi, setState_phi c hc, fwd_phi]
  split_ifs <;> (try simp only [setState_phi c hc]) <;> try rfl

theorem stCOMMAND_phi (c : Ctx) (hc : c.scanStart = 0) (L K : Nat) (s : MatState) :
    stCOMMAND (rescanCtx c L) (phi L K s) = phi L K (stCOMMAND c s) := by
  simp only [stCOMMAND, ch_phi, setState_phi c hc]
  split_ifs <;> (try simp only [phi_upd_isT]) <;> try rfl

theorem stSTRING_phi (c : Ctx) (hc : c.scanStart = 0) (L K : Nat) (s : MatState) :
    stSTRING (rescanCtx c L) (phi L K s) = phi L K (stSTRING c s) := by
  simp only [stSTRING, ch_phi, chNext_phi, rescan_lexType, fwd_phi,
    forwardSetState_phi c hc]
  split_ifs <;> try rfl

theorem stDQ_phi (c : Ctx) (hc : c.scanStart = 0) (L K : Nat) (s : MatState) :
    stDQ (rescanCtx c L) (phi L K s) = phi L K (stDQ c s) := by
  simp only [stDQ, ch_phi, chNext_phi, phi_state, fwd_phi, skipRegexFlags_phi,
    forwardSetState_phi c hc]
  split_ifs <;> (try simp only [forwardSetState_phi c hc]) <;> try rfl

theorem stTRIPLE_phi (c : Ctx) (hc : c.scanStart = 0) (L K : Nat) (s : MatState) :
    stTRIPLE (rescanCtx c L) (phi L K s) = phi L K (stTRIPLE c s) := by
  simp only [stTRIPLE, rescan_doc, phi_pos, fwd2_phi, forwardSetState_phi c hc]
  split_ifs <;> try rfl

theorem stBACKTICK_phi (c : Ctx) (hc : c.scanStart = 0) (L K : Nat) (s : MatState) :
    stBACKTICK (rescanCtx c L) (phi L K s) = phi L K (stBACKTICK c s) := by
  simp only [stBACKTICK, ch_phi, forwardSetState_phi c hc]
  split_ifs <;> try rfl

theorem stCOMMENTBLOCK_phi (c : Ctx) (hc : c.scanStart = 0) (L K : Nat) (s : MatState) :
    stCOMMENTBLOCK (rescanCtx c L) (phi L K s) = phi L K (stCOMMENTBLOCK c s) := by
  simp only [stCOMMENTBLOCK, phi_upd_cl]
  simp only [ch_phi, chNext_phi, rescan_lexType, rescan_doc, phi_pos, phi_visibleChars,
    phi_commentLevel, ← apply_ite (phi L K), fwd_phi, forwardSetState_phi c hc]
  all_goals (split_ifs <;> try rfl)

theorem stCOMMENT_phi (c : Ctx) (hc : c.scanStart = 0) (L K : Nat) (s : MatState) :
    stCOMMENT (rescanCtx c L) (phi L K s) = phi L K (stCOMMENT c s) := by
  simp only [stCOMMENT, phi_upd_vc]
  simp only [rescan_doc, phi_pos, setState_phi c hc, phi_upd_isT]
  split_ifs <;> try rfl

theorem ite_phiH (L K : Nat) (cond : Prop) [Decidable cond] {a b a2 b2 : MatState}
    (ha : cond → a2 = phi L K a) (hb : ¬ cond → b2 = phi L K b) :
    (if cond then a2 else b2) = phi L K (if cond then a else b) := by
  by_cases h : cond
  · rw [if_pos h, if_pos h]; exact ha h
  · rw [if_neg h, if_neg h]; exact hb h

theorem matchState_phi (c : Ctx) (hc : c.scanStart = 0) (L K : Nat) (s : MatState)
    (hP : FrontOk L s) :
    matchState (rescanCtx c L) (phi L K s) = phi L K (matchState c s) := by
  simp only [matchState, phi_state]
  refine ite_phiH L K _ (fun _ => stOPERATOR_phi c hc L K s) (fun _ => ?_)
  refine ite_phiH L K _ (fun _ => stNUMBER_phi c hc L K s) (fun _ => ?_)
  refine ite_phiH L K _ (fun _ => stHEXNUM_phi c hc L K s) (fun _ => ?_)
  refine ite_phiH L K _ (fun h => stIDENT_phi c hc L K s (hP (by simpa using h)))
    (fun _ => ?_)
  refine ite_phiH L K _ (fun _ => stCALLBACK_phi c hc L K s) (fun _ => ?_)
  refine ite_phiH L K _ (fun _ => stCOMMAND_phi c hc L K s) (fun _ => ?_)
  refine ite_phiH L K _ (fun _ => stSTRING_phi c hc L K s) (fun _ => ?_)
  refine ite_phiH L K _ (fun _ => stDQ_phi c hc L K s) (fun _ => ?_)
  refine ite_phiH L K _ (fun _ => stTRIPLE_phi c hc L K s) (fun _ => ?_)
  refine ite_phiH L K _ (fun _ => stBACKTICK_phi c hc L K s) (fun _ => ?_)
  refine ite_phiH L K _ (fun _ => stCOMMENTBLOCK_phi c hc L K s) (fun _ => ?_)
  refine ite_phiH L K _ (fun _ => stCOMMENT_phi c hc L K s) (fun _ => ?_)
  rfl

theorem dfLineComment_phi (c : Ctx) (hc : c.scanStart = 0) (L K : Nat) (s : MatState) :
    dfLineComment (rescanCtx c L) (phi L K s) = phi L K (dfLineComment c s) := by
  simp only [dfLineComment, phi_upd_ht]
  simp only [rescan_lexType, rescan_doc, phi_pos, ch_phi, chNext_phi, phi_hasTest,
    ← apply_ite (phi L K), fwd2_phi, fwd_phi, apply_ite MatState.hasTest]
  split_ifs <;> (try simp only [setState_phi c hc]) <;> try rfl

theorem dfRawString_phi (c : Ctx) (hc : c.scanStart = 0) (L K : Nat) (s : MatState) :
    dfRawString (rescanCtx c L) (phi L K s) = phi L K (dfRawString c s) := by
  simp only [dfRawString, setState_phi c hc, fwd3_phi, fwd2_phi, fwd_phi,
    changeState_phi, rescan_doc, phi_pos]
  split_ifs <;> try rfl

theorem dfOperator_phi (c : Ctx) (hc : c.scanStart = 0) (L K : Nat) (s : MatState) :
    dfOperator (rescanCtx c L) (phi L K s) = phi L K (dfOperator c s) := by
  simp only [dfOperator, setState_phi c hc, ch_phi, chNext_phi, rescan_lexType,
    phi_upd_isT, fwd2_phi, fwd_phi, skipSpaceTab_phi]
  split_ifs <;> (try simp only [setState_phi c hc, skipSpaceTab_phi]) <;> try rfl

theorem defaultDispatch_phi (c : Ctx) (hc : c.scanStart = 0) (L K : Nat) (s : MatState) :
    defaultDispatch (rescanCtx c L) (phi L K s) = phi L K (defaultDispatch c s) := by
  simp only [defaultDispatch, phi_upd_cl, phi_upd_isT]
  simp only [rescan_lexType, rescan_doc, ch_phi, chNext_phi, phi_pos, phi_visibleChars,
    phi_isTranspose, phi_commentLevel]
  refine ite_phiH L K _ (fun _ => by simp only [setState_phi c hc, fwd_phi]) (fun _ => ?_)
  refine ite_phiH L K _ (fun _ => by simp only [setState_phi c hc, fwd_phi]) (fun _ => ?_)
  refine ite_phiH L K _ (fun _ => dfRawString_phi c hc L K s) (fun _ => ?_)
  refine ite_phiH L K _ (fun _ => by
    simp only [← apply_ite (phi L K), setState_phi c hc, fwd_phi]) (fun _ => ?_)
  refine ite_phiH L K _ (fun _ => by
    rw [setState_phi c hc, dfLineComment_phi c hc L K _]) (fun _ => ?_)
  refine ite_phiH L K _ (fun _ => by simp only [setState_phi c hc]) (fun _ => ?_)
  refine ite_phiH L K _ (fun _ => by simp only [setState_phi c hc, fwd2_phi]) (fun _ => ?_)
  refine ite_phiH L K _ (fun _ => by
    simp only [setState_phi c hc, ← apply_ite (phi L K)]) (fun _ => ?_)
  refine ite_phiH L K _ (fun _ => by simp only [setState_phi c hc]) (fun _ => ?_)
  refine ite_phiH L K _ (fun _ => by simp only [setState_phi c hc]) (fun _ => ?_)
  refine ite_phiH L K _ (fun _ => by simp only [setState_phi c hc, fwd_phi]) (fun _ => ?_)
  refine ite_phiH L K _ (fun _ => by simp only [setState_phi c hc]) (fun _ => ?_)
  refine ite_phiH L K _ (fun _ => by simp only [setState_phi c hc, fwd_phi]) (fun _ => ?_)
  refine ite_phiH L K _ (fun _ => by simp only [setState_phi c hc, fwd_phi]) (fun _ => ?_)
  refine ite_phiH L K _ (fun _ => by simp only [setState_phi c hc]) (fun _ => ?_)
  refine ite_phiH L K _ (fun _ => dfOperator_phi c hc L K s) (fun _ => ?_)
  rfl

end LexMatlab

namespace LexMatlab

theorem lineEnd_phi (L K : Nat) (u : MatState) (hKu : K ≤ u.lineStates.length) :
    ({ phi L K u with
        lineStates := (phi L K u).lineStates
          ++ [((phi L K u).lineCurrent, (phi L K u).commentLevel)],
        lineCurrent := (phi L K u).lineCurrent + 1, visibleChars := 0 })
      = phi L K { u with
          lineStates := u.lineStates ++ [(u.lineCurrent, u.commentLevel)],
          lineCurrent := u.lineCurrent + 1, visibleChars := 0 } := by
  have hdrop : u.lineStates.drop K ++ [(u.lineCurrent, u.commentLevel)]
      = (u.lineStates ++ [(u.lineCurrent, u.commentLevel)]).drop K :=
    (List.drop_append_of_le_length hKu).symm
  exact congrArg (fun l => MatState.mk u.pos u.state (u.styles.drop L) u.commentLevel 0
    u.isTransposeOperator u.hasTest (u.lineCurrent + 1) l) hdrop

/-- One full loop iteration commutes with the suffix projection, given the
running invariants: bounds, at least `K` line-state writes already logged,
and no identifier/attribute token straddling the boundary. -/
theorem bodyStep_phi (c : Ctx) (hc : c.scanStart = 0) (L K : Nat) (s : MatState)
    (hb : ScanBounds c L s) (hK : K ≤ s.lineStates.length) (hP : FrontOk L s) :
    bodyStep (rescanCtx c L) (phi L K s) = phi L K (bodyStep c s) := by
  have h1 := matchState_phi c hc L K s hP
  have hKu : K ≤ (if (matchState c s).state = SCE_MAT_DEFAULT
      then defaultDispatch c (matchState c s) else matchState c s).lineStates.length := by
    by_cases hd : (matchState c s).state = SCE_MAT_DEFAULT
    · rw [if_pos hd, defaultDispatch_lineStates, matchState_lineStates]; exact hK
    · rw [if_neg hd, matchState_lineStates]; exact hK
  have h2 : (if (phi L K (matchState c s)).state = SCE_MAT_DEFAULT
      then defaultDispatch (rescanCtx c L) (phi L K (matchState c s))
      else phi L K (matchState c s))
      = phi L K (if (matchState c s).state = SCE_MAT_DEFAULT
        then defaultDispatch c (matchState c s) else matchState c s) := by
    rw [show (phi L K (matchState c s)).state = (matchState c s).state from rfl]
    exact ite_phiH L K _ (fun _ => defaultDispatch_phi c hc L K (matchState c s))
      (fun _ => rfl)
  simp only [bodyStep, h1, h2]
  generalize hU : (if (matchState c s).state = SCE_MAT_DEFAULT
      then defaultDispatch c (matchState c s) else matchState c s) = u at hKu ⊢
  simp only [lineEnd_phi L K u hKu]
  simp only [rescan_doc, phi_pos]
  simp only [← apply_ite (phi L K), phi_upd_vc, ch_phi, phi_visibleChars]

end LexMatlab

namespace LexMatlab

theorem scanLoopT_stop (c : Ctx) (f target : Nat) (s : MatState) (h : target ≤ s.pos) :
    scanLoopT c f target s = s := by
  cases f with
  | zero => rfl
  | succ n => rw [scanLoopT, if_neg (by omega)]

theorem scanLoopT_keeps (c : Ctx) (lo : Nat) (f : Nat) : ∀ (target : Nat) (s : MatState),
    ScanBounds c lo s → ScanBounds c lo (scanLoopT c f target s) := by
  induction f with
  | zero => intro target s h; exact h
  | succ n ih =>
    intro target s h
    rw [scanLoopT]
    by_cases hp : s.pos < target
    · rw [if_pos hp]
      exact ih target _ (fwd_keeps c lo _ (bodyStep_keeps c lo s h))
    · rw [if_neg hp]; exact h

/-- The running scan loop commutes with the suffix projection: each step
preserves the invariants, so the whole loop does. -/
theorem scanLoopT_phi (c : Ctx) (hc : c.scanStart = 0) (L K : Nat) (f : Nat) :
    ∀ (s : MatState), ScanBounds c L s → K ≤ s.lineStates.length → FrontOk L s →
    scanLoopT (rescanCtx c L) f c.doc.length (phi L K s)
      = phi L K (scanLoopT c f c.doc.length s) := by
  induction f with
  | zero => intro s _ _ _; rfl
  | succ n ih =>
    intro s hb hK hP
    rw [scanLoopT, scanLoopT, show (phi L K s).pos = s.pos from rfl]
    by_cases hp : s.pos < c.doc.length
    · rw [if_pos hp, if_pos hp, bodyStep_phi c hc L K s hb hK hP, fwd_phi]
      refine ih _ (fwd_keeps c L _ (bodyStep_keeps c L s hb)) ?_ ?_
      · rw [fwd_lineStates]
        exact le_trans hK (bodyStep_lineStates_len c s)
      · exact frontOk_congr (fwd_state c _) (fwd_styles c _)
          (bodyStep_frontOk c hc L s hb hP)
    · rw [if_neg hp, if_neg hp]

/-- Fuel irrelevance of the scan loop: any two fuels large enough to carry
the cursor to the end of the document give the same final state. -/
theorem scanLoopT_fuel (c : Ctx) (f1 : Nat) : ∀ (f2 : Nat) (s : MatState),
    (c.scanStart + s.styles.length ≤ s.pos ∧ s.pos ≤ c.doc.length) →
    c.doc.length - s.pos ≤ f1 → c.doc.length - s.pos ≤ f2 →
    scanLoopT c f1 c.doc.length s = scanLoopT c f2 c.doc.length s := by
  induction f1 with
  | zero =>
    intro f2 s hs h1 h2
    have hs2 : c.doc.length ≤ s.pos := by omega
    rw [scanLoopT_stop c 0 _ s hs2, scanLoopT_stop c f2 _ s hs2]
  | succ n ih =>
    intro f2 s hs h1 h2
    by_cases hp : s.pos < c.doc.length
    · cases f2 with
      | zero => omega
      | succ m =>
        rw [scanLoopT, scanLoopT, if_pos hp, if_pos hp]
        have hb := bodyStep_keeps c s.pos s ⟨hs, Nat.le_refl _⟩
        obtain ⟨⟨hb1, hb2⟩, hb3⟩ := hb
        have hfb := fwd_keeps c s.pos (bodyStep c s) ⟨⟨hb1, hb2⟩, hb3⟩
        obtain ⟨⟨hf1, hf2⟩, _⟩ := hfb
        have hpos : s.pos + 1 ≤ (fwd c (bodyStep c s)).pos := by
          by_cases hc2 : (bodyStep c s).pos < c.doc.length
          · have he : (fwd c (bodyStep c s)).pos = (bodyStep c s).pos + 1 := by
              simp only [fwd, if_pos hc2]
            omega
          · have he : (fwd c (bodyStep c s)).pos = (bodyStep c s).pos := by
              simp only [fwd, if_neg hc2]
            omega
        exact ih m _ ⟨hf1, hf2⟩ (by omega) (by omega)
    · rw [scanLoopT_stop _ _ _ _ (by omega), scanLoopT_stop _ _ _ _ (by omega)]

/-- Splitting the full scan at an observation point `L`: running the loop
with ample fuel to the end equals first running it with target `L`, then
continuing to the end. -/
theorem scanLoopT_cross (c : Ctx) (L : Nat) (hL : L ≤ c.doc.length) (a : Nat) :
    ∀ (s : MatState),
    (c.scanStart + s.styles.length ≤ s.pos ∧ s.pos ≤ c.doc.length) →
    scanLoopT c (a + (c.doc.length + 1)) c.doc.length s
      = scanLoopT c (c.doc.length + 1) c.doc.length (scanLoopT c a L s) := by
  induction a with
  | zero =>
    intro s hs
    rw [Nat.zero_add]
    rfl
  | succ n ih =>
    intro s hs
    by_cases hp : s.pos < L
    · have hpD : s.pos < c.doc.length := by omega
      rw [Nat.succ_add, scanLoopT, if_pos hpD,
        show scanLoopT c (n + 1) L s = scanLoopT c n L (fwd c (bodyStep c s)) from by
          rw [scanLoopT, if_pos hp]]
      exact ih _ (fwd_keeps c s.pos _ (bodyStep_keeps c s.pos s ⟨hs, Nat.le_refl _⟩)).1
    · rw [scanLoopT_stop c (n + 1) L s (by omega)]
      exact scanLoopT_fuel c ((n + 1) + (c.doc.length + 1)) (c.doc.length + 1) s hs
        (by omega) (by omega)

end LexMatlab

namespace LexMatlab

/-- C1 (amended): re-scan agreement at a boundary `L`.  Let `m` be the
full scan (from position 0, initial style `st0`, inherited line state
`lv0`) observed the first time the cursor reaches `L`.  Provided the
scan-local context at the boundary is reproducible by a fresh invocation —
the cursor lands exactly on `L`, the visible-character count is zero, the
transpose flag is clear, the sticky Octave `hasTest` flag is clear (the
counterexample shows this is a real restriction), the line counter is the
line of `L`, and no identifier/attribute token straddles the boundary —
then re-invoking the scanner on the suffix `[L, end)` seeded with `m`'s
lexical state and comment level reproduces exactly the full scan's style
tags from `L` on and its per-line state writes after the first `K`
(those of the lines before the boundary). -/
theorem claim_C1 (c : Ctx) (st0 : Nat) (lv0 : Int) (L : Nat) (m : MatState) (K : Nat)
    (hc : c.scanStart = 0)
    (hm : m = scanLoopT c (c.doc.length + 1) L (initState c st0 lv0))
    (hK : K = m.lineStates.length)
    (hpos : m.pos = L)
    (hvc : m.visibleChars = 0)
    (htr : m.isTransposeOperator = false)
    (hht : m.hasTest = false)
    (hlc : m.lineCurrent = lineOf c.doc L)
    (hsf : FrontOk L m) :
    (colouriseMatlabDoc (rescanCtx c L) m.state m.commentLevel).styles
        = (colouriseMatlabDoc c st0 lv0).styles.drop L
    ∧ (colouriseMatlabDoc (rescanCtx c L) m.state m.commentLevel).lineStates
        = (colouriseMatlabDoc c st0 lv0).lineStates.drop K := by
  have hs0 : c.scanStart + (initState c st0 lv0).styles.length ≤ (initState c st0 lv0).pos
      ∧ (initState c st0 lv0).pos ≤ c.doc.length := by
    constructor
    · simp [initState]
    · simp [initState, hc]
  have hkeep := scanLoopT_keeps c 0 (c.doc.length + 1) L (initState c st0 lv0)
      ⟨hs0, Nat.zero_le _⟩
  rw [← hm] at hkeep
  obtain ⟨⟨hm1, hm2⟩, _⟩ := hkeep
  have hL : L ≤ c.doc.length := by omega
  have hml : m.styles.length ≤ L := by omega
  have hA : initState (rescanCtx c L) m.state m.commentLevel = phi L K m := by
    have h1 : m.styles.drop L = [] := List.drop_eq_nil_of_le hml
    have h2 : m.lineStates.drop K = [] := by rw [hK]; exact List.drop_length _
    simp only [initState, phi, rescan_scanStart, rescan_doc]
    rw [h1, h2, hpos, hvc, htr, hht, hlc]
  have hEnd : scanLoopT c (c.doc.length + 1) c.doc.length (initState c st0 lv0)
      = scanLoopT c (c.doc.length + 1) c.doc.length m := by
    calc scanLoopT c (c.doc.length + 1) c.doc.length (initState c st0 lv0)
        = scanLoopT c ((c.doc.length + 1) + (c.doc.length + 1)) c.doc.length
            (initState c st0 lv0) :=
          (scanLoopT_fuel c ((c.doc.length + 1) + (c.doc.length + 1)) (c.doc.length + 1)
            (initState c st0 lv0) hs0 (by omega) (by omega)).symm
      _ = scanLoopT c (c.doc.length + 1) c.doc.length
            (scanLoopT c (c.doc.length + 1) L (initState c st0 lv0)) :=
          scanLoopT_cross c L hL (c.doc.length + 1) (initState c st0 lv0) hs0
      _ = scanLoopT c (c.doc.length + 1) c.doc.length m := by rw [← hm]
  have hbm : ScanBounds c L m := ⟨⟨hm1, hm2⟩, hpos.ge⟩
  have hloop := scanLoopT_phi c hc L K (c.doc.length + 1) m hbm (le_of_eq hK) hsf
  simp only [colouriseMatlabDoc, rescan_doc]
  rw [hA, hloop, ← hEnd,
    show ∀ t, (phi L K t).pos = t.pos from fun t => rfl,
    show ∀ t, (phi L K t).state = t.state from fun t => rfl,
    colourUpTo_phi c hc]
  exact ⟨rfl, rfl⟩

/-- C1 witness: the nested-comment document scanned in full from 0, then
re-scanned from the boundary 3 seeded with the observed boundary state
(block-comment state, comment level 1); the suffix re-scan reproduces the
full scan's styles from position 3 on and its line-state writes after the
first one. -/
theorem claim_C1_witness :
    rsFullCtx.scanStart = 0 ∧ rsMid.pos = 3 ∧ rsMid.hasTest = false
    ∧ (colouriseMatlabDoc (rescanCtx rsFullCtx 3) rsMid.state rsMid.commentLevel).styles
        = (colouriseMatlabDoc rsFullCtx SCE_MAT_DEFAULT 0).styles.drop 3
    ∧ (colouriseMatlabDoc (rescanCtx rsFullCtx 3) rsMid.state rsMid.commentLevel).lineStates
        = (colouriseMatlabDoc rsFullCtx SCE_MAT_DEFAULT 0).lineStates.drop
            rsMid.lineStates.length :=
  ⟨rfl, by decide, by decide,
    (claim_C1 rsFullCtx SCE_MAT_DEFAULT 0 3 rsMid rsMid.lineStates.length rfl rfl rfl
      (by decide) (by decide) (by decide) (by decide) (by decide)
      (fun h => absurd h (by decide))).1,
    (claim_C1 rsFullCtx SCE_MAT_DEFAULT 0 3 rsMid rsMid.lineStates.length rfl rfl rfl
      (by decide) (by decide) (by decide) (by decide) (by decide)
      (fun h => absurd h (by decide))).2⟩

end LexMatlab
